import Mathlib

/-!
# E-Waste portal client: session and role-gated routing

A shallow embedding of the session layer of the browser client
(`frontend/src/App.jsx`, `frontend/src/services/api.js`) and of the load and
mutation handlers of its pages (`frontend/src/pages`).

* The token store is `localStorage['token']`, an optional string.
* A request that leaves the client is recorded in a log, so that "no request
  was issued" is a statement about the log.
* An `async` function is a state transformer that also returns either a value
  or a thrown error; state changes made before a `throw` persist, as they do
  in JavaScript.
* What the server answers is a parameter of every operation that talks to it.
-/

namespace EWaste

/-! ## Data model -/

/-- Identity record served by `GET /users/me`; the client reads `id`, `email`,
`name` and `role` from it. -/
structure Identity where
  id : Nat
  email : String
  name : Option String
  role : String
deriving DecidableEq, Repr

/-- Failure of a request as the callers read it: `err.response.status` and
`err.response.data.detail`, each possibly missing (a network error has
neither). -/
structure ApiError where
  status : Option Nat
  detail : Option String
deriving DecidableEq, Repr

/-- Headers of an outgoing request: the `Authorization` entry and the rest. -/
structure Headers where
  Authorization : Option String
  rest : List (String × String)
deriving DecidableEq, Repr

/-- Request config handed to the request interceptor. -/
structure Config where
  method : String
  url : String
  headers : Headers
  data : List (String × String)
deriving DecidableEq, Repr

/-- Client-side network state: the token store and the log of requests sent,
oldest first. -/
structure Net where
  token : Option String
  requests : List Config
deriving DecidableEq, Repr

/-- State owned by `App`: the two `useState` cells, the router location, and
the network state it acts on. -/
structure AppState where
  net : Net
  user : Option Identity
  loading : Bool
  location : String
deriving DecidableEq, Repr

/-! ## Effectful actions -/

/-- An action over state `σ`: returns a value or throws, and yields the state
reached either way. -/
abbrev Act (σ α : Type) := σ → Except ApiError α × σ

/-- Action that returns `a` and leaves the state alone. -/
def Act.pure {σ α : Type} (a : α) : Act σ α :=
  fun s => (Except.ok a, s)

/-- Sequencing (`await m; f`): a throw in `m` skips `f`. -/
def Act.bind {σ α β : Type} (m : Act σ α) (f : α → Act σ β) : Act σ β :=
  fun s =>
    match m s with
    | (Except.ok a, s1) => f a s1
    | (Except.error e, s1) => (Except.error e, s1)

/-- Block `try { body } catch (e) { handler e }`. -/
def Act.tryCatch {σ α : Type} (body : Act σ α) (handler : ApiError → Act σ α) : Act σ α :=
  fun s =>
    match body s with
    | (Except.ok a, s1) => (Except.ok a, s1)
    | (Except.error e, s1) => handler e s1

/-- Block `try { body } finally { fin }`: `fin` always runs; the outcome is the
one of `body` unless `fin` itself throws. -/
def Act.tryFinally {σ α : Type} (body : Act σ α) (fin : Act σ Unit) : Act σ α :=
  fun s =>
    match body s with
    | (r, s1) =>
      match fin s1 with
      | (Except.ok _, s2) => (r, s2)
      | (Except.error e, s2) => (Except.error e, s2)

/-- Run a network action inside `App`. -/
def onNet {α : Type} (m : Act Net α) : Act AppState α :=
  fun s =>
    match m s.net with
    | (r, n) => (r, { s with net := n })

/-! ## `services/api.js` -/

/-- Request interceptor of `api.js`: reads the token and, when it is truthy
(present and not the empty string), sets `headers.Authorization`. -/
def requestInterceptor (token : Option String) (config : Config) : Config :=
  match token with
  | some t =>
    if t ≠ "" then
      { config with headers := { config.headers with Authorization := some ("Bearer " ++ t) } }
    else config
  | none => config

/-- Config that a call of the `api` instance starts from: method, url and
payload, no `Authorization` header yet. -/
def baseConfig (method url : String) (data : List (String × String)) : Config :=
  { method := method, url := url, headers := { Authorization := none, rest := [] }, data := data }

/-- Call `api.get(url)`: the config passes the interceptor, is sent (logged),
and the server's answer to it is the outcome; the value is `res.data`. -/
def apiGet {α : Type} (url : String) (answer : Config → Except ApiError α) : Act Net α :=
  fun n =>
    let config := requestInterceptor n.token (baseConfig "get" url [])
    (answer config, { n with requests := n.requests ++ [config] })

/-- Operation `getMe()`: `GET /users/me`. -/
def getMe (answer : Config → Except ApiError Identity) : Act Net Identity :=
  apiGet "/users/me" answer

/-! ## `App.jsx` -/

/-- Elements that a route of `App` can produce. -/
inductive Element where
  | navigate (target : String) (replace : Bool)
  | welcome
  | login
  | register
  | userDashboard
  | recyclerDashboard
  | adminDashboard
deriving DecidableEq, Repr

/-- Component `ProtectedRoute({ children, allow, user })`; `allow` may be
absent. -/
def ProtectedRoute (children : Element) (allow : Option (List String))
    (user : Option Identity) : Element :=
  match user with
  | none => Element.navigate "/login" true
  | some u =>
    match allow with
    | some roles => if ¬ (u.role ∈ roles) then Element.navigate "/" true else children
    | none => children

/-- The `element` of the route with `path="/"`. -/
def rootElement (user : Option Identity) : Element :=
  match user with
  | some u =>
    if u.role = "admin" then Element.navigate "/admin" false
    else if u.role = "recycler" then Element.navigate "/recycler" false
    else Element.navigate "/dashboard" false
  | none => Element.welcome

/-- Route table of `App`, in source order: path and element. -/
def routes (user : Option Identity) : List (String × Element) :=
  [ ("/", rootElement user),
    ("/login", Element.login),
    ("/register", Element.register),
    ("/dashboard", ProtectedRoute Element.userDashboard (some ["user"]) user),
    ("/recycler", ProtectedRoute Element.recyclerDashboard (some ["recycler"]) user),
    ("/admin", ProtectedRoute Element.adminDashboard (some ["admin"]) user) ]

/-- What `App` returns: the loading indicator, or the layout with the
navigation bar (which receives `user`) and the element of the matched route,
if any. -/
inductive View where
  | loadingIndicator
  | layout (navUser : Option Identity) (outlet : Option Element)
deriving DecidableEq, Repr

/-- Render of `App`. How the router matches a route path against the location
belongs to the router library, so it is the parameter `pathMatch`. -/
def App (pathMatch : String → String → Bool) (s : AppState) : View :=
  if s.loading then View.loadingIndicator
  else
    View.layout s.user
      (((routes s.user).find? (fun r => pathMatch r.1 s.location)).map (fun r => r.2))

/-- Matcher that accepts a location equal to the route path. -/
def exactPath (path location : String) : Bool :=
  path == location

/-- State of `App` at mount: `useState(null)`, `useState(true)`. -/
def App.init (net : Net) (location : String) : AppState :=
  { net := net, user := none, loading := true, location := location }

/-- State setter `setUser`. -/
def setUser (u : Option Identity) : Act AppState Unit :=
  fun s => (Except.ok (), { s with user := u })

/-- State setter `setLoading`. -/
def setLoading (b : Bool) : Act AppState Unit :=
  fun s => (Except.ok (), { s with loading := b })

/-- Function `loadMe` of `App`: try `getMe` then `setUser(res)`, catch
`setUser(null)`, finally `setLoading(false)`. -/
def loadMe (answer : Config → Except ApiError Identity) : Act AppState Unit :=
  Act.tryFinally
    (Act.tryCatch
      (Act.bind (onNet (getMe answer)) (fun res => setUser (some res)))
      (fun _ => setUser none))
    (setLoading false)

/-- Function `logout` of `App`: remove the token, `setUser(null)`,
`navigate('/login')`. -/
def logout : Act AppState Unit :=
  fun s =>
    (Except.ok (),
      { s with net := { s.net with token := none }, user := none, location := "/login" })

/-- Mount of `App`: the effect runs `loadMe` once on the initial state. -/
def bootstrap (answer : Config → Except ApiError Identity) (net : Net) (location : String) :
    Except ApiError Unit × AppState :=
  loadMe answer (App.init net location)

/-- One call on the session: `loadMe` with the server's answer for that call,
or `logout`. -/
inductive SessionOp where
  | loadMe (answer : Config → Except ApiError Identity)
  | logout

/-- State after one session call. -/
def SessionOp.run (op : SessionOp) (s : AppState) : AppState :=
  match op with
  | SessionOp.loadMe answer => (EWaste.loadMe answer s).2
  | SessionOp.logout => (EWaste.logout s).2

/-- State after a sequence of session calls, first call first. -/
def runOps (ops : List SessionOp) (s : AppState) : AppState :=
  ops.foldl (fun acc op => op.run acc) s

/-- The three protected paths of the route table. -/
def protectedPaths : List String :=
  ["/dashboard", "/recycler", "/admin"]

/-- The observable session triple: user, loading flag, stored token. -/
def sessionTriple (s : AppState) : Option Identity × Bool × Option String :=
  (s.user, s.loading, s.net.token)

/-! ## Server payloads -/

/-- Recycling center as served by `GET /recyclers/centers`. Coordinates and
score are only passed through by the handlers and are carried as integers. -/
structure Center where
  id : Nat
  name : String
  latitude : Int
  longitude : Int
  approved : Bool
  manager_user_id : Option Nat
  performance_score : Int
deriving DecidableEq, Repr

/-- Report as served by `GET /reports/history` and `GET /recyclers/assigned`. -/
structure Report where
  id : Nat
  category : String
  suggestion : Option String
  status : String
  image_url : Option String
  created_at : String
deriving DecidableEq, Repr

/-- Body of `GET /analytics/overview`. -/
structure Analytics where
  by_category : List (String × Nat)
  center_performance : List (String × Int)
  top_contributors : List (String × Nat)
deriving DecidableEq, Repr

/-- Body of `GET /users/stats`. -/
structure UserStats where
  points : Nat
  total_reports : Nat
  recycled_count : Nat
deriving DecidableEq, Repr

/-- Body of `POST /auth/login-json`: the client reads `access_token`. -/
structure LoginResponse where
  access_token : String
  rest : List (String × String)
deriving DecidableEq, Repr

/-- Body of `POST /reports/create`: the client reads `category` and
`confidence`; the confidence is carried as a rational. -/
structure CreateReportResponse where
  category : String
  confidence : Rat
deriving DecidableEq, Repr

/-- What the server answers to each operation of `api.js`, as a rule from the
request that reaches it. -/
structure Server where
  login : Config → Except ApiError LoginResponse
  register : Config → Except ApiError Unit
  getMe : Config → Except ApiError Identity
  listCenters : Config → Except ApiError (List Center)
  recyclerAssigned : Config → Except ApiError (List Report)
  recyclerUpdateStatus : Config → Except ApiError Unit
  claimCenter : Config → Except ApiError Unit
  createReport : Config → Except ApiError CreateReportResponse
  userHistory : Config → Except ApiError (List Report)
  adminApproveCenter : Config → Except ApiError Unit
  analyticsOverview : Config → Except ApiError Analytics
  getUserStats : Config → Except ApiError UserStats

/-! ## Remaining operations of `services/api.js` -/

/-- Call `api.post(url, data)`: as `apiGet`, with method `post` and a
payload. -/
def apiPost {α : Type} (url : String) (data : List (String × String))
    (answer : Config → Except ApiError α) : Act Net α :=
  fun n =>
    let config := requestInterceptor n.token (baseConfig "post" url data)
    (answer config, { n with requests := n.requests ++ [config] })

/-- Operation `login(email, password)`: post, then store `access_token`, then
return the body. -/
def login (email password : String) (answer : Config → Except ApiError LoginResponse) :
    Act Net LoginResponse :=
  Act.bind (apiPost "/auth/login-json" [("email", email), ("password", password)] answer)
    (fun res n => (Except.ok res, { n with token := some res.access_token }))

/-- Operation `register(payload)`. -/
def register (payload : List (String × String)) (answer : Config → Except ApiError Unit) :
    Act Net Unit :=
  apiPost "/auth/register" payload answer

/-- Operation `listCenters()`. -/
def listCenters (answer : Config → Except ApiError (List Center)) : Act Net (List Center) :=
  apiGet "/recyclers/centers" answer

/-- Operation `recyclerAssigned()`. -/
def recyclerAssigned (answer : Config → Except ApiError (List Report)) : Act Net (List Report) :=
  apiGet "/recyclers/assigned" answer

/-- Operation `recyclerUpdateStatus(reportId, status)`. -/
def recyclerUpdateStatus (reportId : Nat) (status : String)
    (answer : Config → Except ApiError Unit) : Act Net Unit :=
  apiPost ("/recyclers/assigned/" ++ toString reportId ++ "/status") [("status", status)] answer

/-- Operation `claimCenter(centerId)`. -/
def claimCenter (centerId : Nat) (answer : Config → Except ApiError Unit) : Act Net Unit :=
  apiPost ("/recyclers/centers/" ++ toString centerId ++ "/claim") [] answer

/-- Operation `createReport(file, recyclerId)`: the form holds the file and,
when `recyclerId` is truthy (present and not zero), `recycler_id`. -/
def createReport (file : String) (recyclerId : Option Nat)
    (answer : Config → Except ApiError CreateReportResponse) : Act Net CreateReportResponse :=
  apiPost "/reports/create"
    ([("file", file)] ++
      (match recyclerId with
        | some k => if k ≠ 0 then [("recycler_id", toString k)] else []
        | none => []))
    answer

/-- Operation `userHistory()`. -/
def userHistory (answer : Config → Except ApiError (List Report)) : Act Net (List Report) :=
  apiGet "/reports/history" answer

/-- Operation `adminApproveCenter(centerId)`. -/
def adminApproveCenter (centerId : Nat) (answer : Config → Except ApiError Unit) : Act Net Unit :=
  apiPost ("/admin/centers/" ++ toString centerId ++ "/approve") [] answer

/-- Operation `analyticsOverview()`. -/
def analyticsOverview (answer : Config → Except ApiError Analytics) : Act Net Analytics :=
  apiGet "/analytics/overview" answer

/-- Operation `getUserStats()`. -/
def getUserStats (answer : Config → Except ApiError UserStats) : Act Net UserStats :=
  apiGet "/users/stats" answer

/-! ## Notifications raised by a page -/

/-- Content of the `toast` cell of a page: `{ message, type }`. -/
structure ToastMsg where
  message : String
  type : String
deriving DecidableEq, Repr

/-- Notification state of a page: the `toast` cell, the log of every toast
raised so far (oldest first), the due times of the scheduled
`setTimeout(() => setToast(null), 3000)` callbacks, and the clock. -/
structure Notifier where
  toast : Option ToastMsg
  raised : List ToastMsg
  timeouts : List Nat
  now : Nat
deriving DecidableEq, Repr

/-- Page helper `showToast(message, type = 'info')`: set the toast and schedule
its clearing 3000 ms later. -/
def showToast (message : String) (type : Option String) (u : Notifier) : Notifier :=
  { u with
    toast := some { message := message, type := type.getD "info" },
    raised := u.raised ++ [{ message := message, type := type.getD "info" }],
    timeouts := u.timeouts ++ [u.now + 3000] }

/-- Expression `err?.response?.data?.detail || fallback`: the detail when it is
a non-empty string, the fallback otherwise. -/
def detailOr (err : ApiError) (fallback : String) : String :=
  match err.detail with
  | some d => if d ≠ "" then d else fallback
  | none => fallback

/-- Run an action on a part of the state, given how to read and write it. -/
def Act.lift {σ τ α : Type} (get : σ → τ) (set : τ → σ → σ) (m : Act τ α) : Act σ α :=
  fun s =>
    match m (get s) with
    | (r, t) => (r, set t s)

/-- Action that applies a state update and returns normally. -/
def Act.modify {σ : Type} (f : σ → σ) : Act σ Unit :=
  fun s => (Except.ok (), f s)

/-! ## `pages/AdminDashboard.jsx` -/

/-- State of `AdminDashboard`. -/
structure AdminState where
  net : Net
  centers : List Center
  analytics : Option Analytics
  loading : Bool
  filterApproved : String
  ui : Notifier
deriving DecidableEq, Repr

/-- Run a network action inside `AdminDashboard`. -/
def AdminState.onNet {α : Type} (m : Act Net α) : Act AdminState α :=
  Act.lift (fun s => s.net) (fun n s => { s with net := n }) m

/-- Helper `showToast` of `AdminDashboard`. -/
def AdminState.showToast (message : String) (type : Option String) : Act AdminState Unit :=
  Act.modify (fun s => { s with ui := EWaste.showToast message type s.ui })

/-- Function `load` of `AdminDashboard`. -/
def AdminState.load (srv : Server) : Act AdminState Unit :=
  Act.bind (Act.modify (fun s => { s with loading := true })) (fun _ =>
    Act.tryFinally
      (Act.tryCatch
        (Act.bind (AdminState.onNet (listCenters srv.listCenters)) (fun c =>
          Act.bind (Act.modify (fun s => { s with centers := c })) (fun _ =>
            Act.bind (AdminState.onNet (analyticsOverview srv.analyticsOverview)) (fun a =>
              Act.modify (fun s => { s with analytics := some a })))))
        (fun err => AdminState.showToast (detailOr err "Failed to load data") (some "error")))
      (Act.modify (fun s => { s with loading := false })))

/-- Handler `approve(id)` of `AdminDashboard`. -/
def AdminState.approve (srv : Server) (id : Nat) : Act AdminState Unit :=
  Act.tryCatch
    (Act.bind (AdminState.onNet (adminApproveCenter id srv.adminApproveCenter)) (fun _ =>
      Act.bind (AdminState.showToast "Center approved successfully!" (some "success")) (fun _ =>
        AdminState.load srv)))
    (fun err => AdminState.showToast (detailOr err "Failed to approve center") (some "error"))

/-! ## `pages/RecyclerDashboard.jsx` -/

/-- State of `RecyclerDashboard`. -/
structure RecyclerState where
  net : Net
  items : List Report
  centers : List Center
  availableCenters : List Center
  claimedCenters : List Center
  loading : Bool
  previewImage : Option String
  statusFilter : String
  searchQuery : String
  ui : Notifier
deriving DecidableEq, Repr

/-- Run a network action inside `RecyclerDashboard`. -/
def RecyclerState.onNet {α : Type} (m : Act Net α) : Act RecyclerState α :=
  Act.lift (fun s => s.net) (fun n s => { s with net := n }) m

/-- Helper `showToast` of `RecyclerDashboard`. -/
def RecyclerState.showToast (message : String) (type : Option String) : Act RecyclerState Unit :=
  Act.modify (fun s => { s with ui := EWaste.showToast message type s.ui })

/-- Test `c.manager_user_id === me.id`. -/
def managedBy (me : Identity) (c : Center) : Bool :=
  c.manager_user_id == some me.id

/-- Test `!c.manager_user_id`: no manager, or the manager id zero. -/
def noManager (c : Center) : Bool :=
  match c.manager_user_id with
  | none => true
  | some k => k == 0

/-- Function `loadDashboard` of `RecyclerDashboard`. -/
def RecyclerState.loadDashboard (srv : Server) : Act RecyclerState Unit :=
  Act.bind (Act.modify (fun s => { s with loading := true })) (fun _ =>
    Act.tryFinally
      (Act.tryCatch
        (Act.bind (RecyclerState.onNet (getMe srv.getMe)) (fun me =>
          Act.bind (RecyclerState.onNet (listCenters srv.listCenters)) (fun centerRes =>
            Act.bind (Act.modify (fun s => { s with centers := centerRes })) (fun _ =>
              Act.bind (Act.modify (fun s =>
                  { s with claimedCenters := centerRes.filter (fun c => managedBy me c) })) (fun _ =>
                Act.bind (Act.modify (fun s =>
                    { s with availableCenters :=
                        centerRes.filter (fun c => c.approved && (noManager c || managedBy me c)) }))
                  (fun _ =>
                    Act.bind (RecyclerState.onNet (recyclerAssigned srv.recyclerAssigned))
                      (fun assignments =>
                        Act.modify (fun s => { s with items := assignments }))))))))
        (fun err =>
          RecyclerState.showToast (detailOr err "Failed to load dashboard") (some "error")))
      (Act.modify (fun s => { s with loading := false })))

/-- Handler `update(id, status)` of `RecyclerDashboard`. -/
def RecyclerState.update (srv : Server) (id : Nat) (status : String) : Act RecyclerState Unit :=
  Act.tryCatch
    (Act.bind (RecyclerState.onNet (recyclerUpdateStatus id status srv.recyclerUpdateStatus))
      (fun _ =>
        Act.bind (RecyclerState.showToast ("Status updated to " ++ status) (some "success"))
          (fun _ => RecyclerState.loadDashboard srv)))
    (fun err => RecyclerState.showToast (detailOr err "Failed to update status") (some "error"))

/-- Handler `handleClaim(centerId)` of `RecyclerDashboard`. -/
def RecyclerState.handleClaim (srv : Server) (centerId : Nat) : Act RecyclerState Unit :=
  Act.tryCatch
    (Act.bind (RecyclerState.onNet (claimCenter centerId srv.claimCenter)) (fun _ =>
      Act.bind (RecyclerState.showToast "Center claimed successfully!" (some "success"))
        (fun _ => RecyclerState.loadDashboard srv)))
    (fun err => RecyclerState.showToast (detailOr err "Unable to claim center") (some "error"))

/-! ## `pages/UserDashboard.jsx` -/

/-- State of `UserDashboard`. -/
structure UserState where
  net : Net
  centers : List Center
  selectedCenter : Option Center
  file : Option String
  history : List Report
  stats : Option UserStats
  loading : Bool
  searchQuery : String
  statusFilter : String
  previewImage : Option String
  ui : Notifier
deriving DecidableEq, Repr

/-- Run a network action inside `UserDashboard`. -/
def UserState.onNet {α : Type} (m : Act Net α) : Act UserState α :=
  Act.lift (fun s => s.net) (fun n s => { s with net := n }) m

/-- Helper `showToast` of `UserDashboard`. -/
def UserState.showToast (message : String) (type : Option String) : Act UserState Unit :=
  Act.modify (fun s => { s with ui := EWaste.showToast message type s.ui })

/-- Function `loadData` of `UserDashboard`; it has no `try`, so a failed read
makes it throw. The mount effect calls it without handling the rejection. -/
def UserState.loadData (srv : Server) : Act UserState Unit :=
  Act.bind (UserState.onNet (listCenters srv.listCenters)) (fun c =>
    Act.bind (Act.modify (fun s => { s with centers := c })) (fun _ =>
      Act.bind (UserState.onNet (userHistory srv.userHistory)) (fun h =>
        Act.bind (Act.modify (fun s => { s with history := h })) (fun _ =>
          Act.bind (UserState.onNet (getUserStats srv.getUserStats)) (fun st =>
            Act.modify (fun s => { s with stats := some st }))))))

/-- Handler `submit` of `UserDashboard`. The text of
`Math.round(res.confidence * 100)`, which the language computes on doubles, is
the parameter `percent`. The reset of the file input element of the page is
outside the state. -/
def UserState.submit (srv : Server) (percent : Rat → String) : Act UserState Unit :=
  fun s =>
    match s.file with
    | none => UserState.showToast "Please select an image" (some "error") s
    | some file =>
      Act.bind (Act.modify (fun s => { s with loading := true })) (fun _ =>
        Act.tryFinally
          (Act.tryCatch
            (Act.bind
              (UserState.onNet
                (createReport file (s.selectedCenter.map (fun c => c.id)) srv.createReport))
              (fun res =>
                Act.bind
                  (UserState.showToast
                    ("Uploaded: " ++ res.category ++ " (" ++ percent res.confidence ++
                      "% confidence)")
                    (some "success"))
                  (fun _ =>
                    Act.bind (UserState.loadData srv) (fun _ =>
                      Act.bind (Act.modify (fun s => { s with file := none })) (fun _ =>
                        Act.modify (fun s => { s with selectedCenter := none }))))))
            (fun err => UserState.showToast (detailOr err "Upload failed") (some "error")))
          (Act.modify (fun s => { s with loading := false }))) s

/-! ## `pages/Register.jsx` -/

/-- State of `Register`, with the state of `App` that `onRegister` acts on
(the token store and request log are in `app.net`) and the due times and
targets of the scheduled `navigate` callbacks. -/
structure RegisterState where
  app : AppState
  email : String
  name : String
  password : String
  role : String
  centerName : String
  latitude : String
  longitude : String
  error : String
  loading : Bool
  navigations : List (Nat × String)
  ui : Notifier
deriving DecidableEq, Repr

/-- Run a network action inside `Register`. -/
def RegisterState.onNet {α : Type} (m : Act Net α) : Act RegisterState α :=
  Act.lift (fun s => s.app.net) (fun n s => { s with app := { s.app with net := n } }) m

/-- Run the `onRegister` callback, which acts on `App`. -/
def RegisterState.onApp {α : Type} (m : Act AppState α) : Act RegisterState α :=
  Act.lift (fun s => s.app) (fun a s => { s with app := a }) m

/-- Helper `showToast` of `Register`. -/
def RegisterState.showToast (message : String) (type : Option String) : Act RegisterState Unit :=
  Act.modify (fun s => { s with ui := EWaste.showToast message type s.ui })

/-- Payload of the register request; fields that are `undefined` are not sent.
The text of `Number(...)` is the parameter `number`. -/
def RegisterState.payload (number : String → String) (s : RegisterState) :
    List (String × String) :=
  [("email", s.email), ("name", s.name), ("password", s.password), ("role", s.role)] ++
    (if s.role = "recycler" then
      [("center_name", s.centerName), ("center_latitude", number s.latitude),
        ("center_longitude", number s.longitude)]
    else [])

/-- Target of the navigation that `Register.submit` schedules on success. -/
def RegisterState.home (role : String) : String :=
  if role = "admin" then "/admin" else if role = "recycler" then "/recycler" else "/dashboard"

/-- Handler `submit` of `Register`; `onRegister` is the callback prop. -/
def RegisterState.submit (srv : Server) (number : String → String)
    (onRegister : Act AppState Unit) : Act RegisterState Unit :=
  fun s0 =>
    let s := { s0 with error := "" }
    if s.role = "recycler" ∧ (s.centerName = "" ∨ s.latitude = "" ∨ s.longitude = "") then
      RegisterState.showToast "Please fill all recycler center details" (some "error")
        { s with error := "Please provide center name and coordinates for recycler registration" }
    else
      Act.bind (Act.modify (fun s => { s with loading := true })) (fun _ =>
        Act.tryFinally
          (Act.tryCatch
            (Act.bind
              (RegisterState.onNet (register (RegisterState.payload number s) srv.register))
              (fun _ =>
                Act.bind (RegisterState.onNet (login s.email s.password srv.login)) (fun _ =>
                  Act.bind (RegisterState.onApp onRegister) (fun _ =>
                    Act.bind (RegisterState.showToast "Registration successful!" (some "success"))
                      (fun _ =>
                        Act.modify (fun t =>
                          { t with navigations :=
                              t.navigations ++ [(t.ui.now + 500, RegisterState.home s.role)] }))))))
            (fun err =>
              Act.bind
                (Act.modify (fun t => { t with error := detailOr err "Registration failed" }))
                (fun _ =>
                  RegisterState.showToast (detailOr err "Registration failed") (some "error"))))
          (Act.modify (fun s => { s with loading := false }))) s

/-- Config of a request as it leaves the client under a stored token: the base
config after the interceptor. -/
def outgoing (token : Option String) (method url : String) (data : List (String × String)) :
    Config :=
  requestInterceptor token (baseConfig method url data)

/-! ## Servers used in examples -/

/-- Server that rejects every request with the error `e`. -/
def Server.rejecting (e : ApiError) : Server :=
  { login := fun _ => Except.error e,
    register := fun _ => Except.error e,
    getMe := fun _ => Except.error e,
    listCenters := fun _ => Except.error e,
    recyclerAssigned := fun _ => Except.error e,
    recyclerUpdateStatus := fun _ => Except.error e,
    claimCenter := fun _ => Except.error e,
    createReport := fun _ => Except.error e,
    userHistory := fun _ => Except.error e,
    adminApproveCenter := fun _ => Except.error e,
    analyticsOverview := fun _ => Except.error e,
    getUserStats := fun _ => Except.error e }

/-- Request config used in examples: a report upload that already carries
headers. -/
def Config.sample : Config :=
  { method := "post", url := "/reports/create",
    headers := { Authorization := some "Bearer old", rest := [("Accept", "json")] },
    data := [("file", "tv.png")] }

/-- Center used in examples: approved, unclaimed. -/
def Center.sample : Center :=
  { id := 4, name := "GreenLoop", latitude := 17, longitude := 78, approved := true,
    manager_user_id := none, performance_score := 0 }

/-- Report used in examples. -/
def Report.sample : Report :=
  { id := 11, category := "battery", suggestion := none, status := "assigned",
    image_url := none, created_at := "2024-01-01" }

/-- Server that accepts every request and serves one center, one report, a
recycler identity with id 2, and empty statistics. -/
def Server.accepting : Server :=
  { login := fun _ => Except.ok { access_token := "fresh", rest := [] },
    register := fun _ => Except.ok (),
    getMe := fun _ => Except.ok { id := 2, email := "r@portal", name := none, role := "recycler" },
    listCenters := fun _ => Except.ok [Center.sample],
    recyclerAssigned := fun _ => Except.ok [Report.sample],
    recyclerUpdateStatus := fun _ => Except.ok (),
    claimCenter := fun _ => Except.ok (),
    createReport := fun _ => Except.ok { category := "battery", confidence := 1 },
    userHistory := fun _ => Except.ok [Report.sample],
    adminApproveCenter := fun _ => Except.ok (),
    analyticsOverview := fun _ =>
      Except.ok { by_category := [], center_performance := [], top_contributors := [] },
    getUserStats := fun _ => Except.ok { points := 0, total_reports := 0, recycled_count := 0 } }

/-- Notifier with nothing shown, nothing raised, nothing scheduled, at time 0. -/
def Notifier.empty : Notifier :=
  { toast := none, raised := [], timeouts := [], now := 0 }

/-- State of `AdminDashboard` at mount, over a network state. -/
def AdminState.init (net : Net) : AdminState :=
  { net := net, centers := [], analytics := none, loading := true, filterApproved := "all",
    ui := Notifier.empty }

/-- State of `RecyclerDashboard` at mount, over a network state. -/
def RecyclerState.init (net : Net) : RecyclerState :=
  { net := net, items := [], centers := [], availableCenters := [], claimedCenters := [],
    loading := true, previewImage := none, statusFilter := "all", searchQuery := "",
    ui := Notifier.empty }

/-- State of `UserDashboard` at mount, over a network state. -/
def UserState.init (net : Net) : UserState :=
  { net := net, centers := [], selectedCenter := none, file := none, history := [],
    stats := none, loading := false, searchQuery := "", statusFilter := "all",
    previewImage := none, ui := Notifier.empty }

/-- State of `Register` at mount, over a state of `App`. -/
def RegisterState.init (app : AppState) : RegisterState :=
  { app := app, email := "", name := "", password := "", role := "user", centerName := "",
    latitude := "", longitude := "", error := "", loading := false, navigations := [],
    ui := Notifier.empty }

/-! ## Derived lists of the dashboards -/

/-- Method `s.includes(sub)`: `sub` occurs in `s` as a contiguous piece. -/
def includes (s sub : String) : Bool :=
  decide (sub.data <:+: s.data)

/-- Lower-casing of the letters `A` to `Z`, used where an example needs a
concrete `toLowerCase`. -/
def asciiLower (s : String) : String :=
  String.mk (s.data.map Char.toLower)

/-- Derived list `filteredItems` of `RecyclerDashboard`. The method
`toLowerCase` of the language is the parameter `lower`. -/
def RecyclerState.filteredItems (lower : String → String) (s : RecyclerState) : List Report :=
  s.items.filter (fun item =>
    (includes (lower item.category) (lower s.searchQuery) ||
      (match item.suggestion with
        | some sg => decide (sg ≠ "") && includes (lower sg) (lower s.searchQuery)
        | none => false)) &&
    (decide (s.statusFilter = "all") || decide (item.status = s.statusFilter)))

/-- Derived list `filteredHistory` of `UserDashboard`. -/
def UserState.filteredHistory (lower : String → String) (s : UserState) : List Report :=
  s.history.filter (fun h =>
    (includes (lower h.category) (lower s.searchQuery) ||
      (match h.suggestion with
        | some sg => decide (sg ≠ "") && includes (lower sg) (lower s.searchQuery)
        | none => false)) &&
    (decide (s.statusFilter = "all") || decide (h.status = s.statusFilter)))

/-- Derived list `filteredCenters` of `AdminDashboard`. -/
def AdminState.filteredCenters (s : AdminState) : List Center :=
  s.centers.filter (fun c =>
    if s.filterApproved = "approved" then c.approved
    else if s.filterApproved = "pending" then !c.approved
    else true)

/-- Condition `!c.manager_user_id` under which the list of available centers
shows the button `Claim Center`. -/
def offersClaim (c : Center) : Bool :=
  noManager c

/-- Condition `c.manager_user_id` under which the list of available centers
shows the label `Already claimed by you`. -/
def labelledClaimed (c : Center) : Bool :=
  !noManager c

/-! ## `components/Toast.jsx`: `useToast` -/

/-- Entry of the `toasts` list: `{ id, message, type }`. -/
structure ToastEntry where
  id : Nat
  message : String
  type : String
deriving DecidableEq, Repr

/-- Function `showToast(message, type = 'info')` of `useToast`, called when
`Date.now()` is `now`: returns the id and the new list. -/
def useToast.showToast (now : Nat) (message : String) (type : Option String)
    (toasts : List ToastEntry) : Nat × List ToastEntry :=
  (now, toasts ++ [{ id := now, message := message, type := type.getD "info" }])

/-- Function `removeToast(id)` of `useToast`. -/
def useToast.removeToast (id : Nat) (toasts : List ToastEntry) : List ToastEntry :=
  toasts.filter (fun t => decide (t.id ≠ id))

/-- List after a sequence of `showToast` calls, each given as clock value,
message and type, first call first. -/
def useToast.showAll (calls : List (Nat × String × Option String))
    (toasts : List ToastEntry) : List ToastEntry :=
  calls.foldl (fun acc c => (useToast.showToast c.1 c.2.1 c.2.2 acc).2) toasts

/-! ## Passing of time on a page -/

/-- Time passes on a page until the clock shows `t`: every scheduled
`() => setToast(null)` that is due by then has run and is no longer
scheduled. -/
def Notifier.advance (t : Nat) (u : Notifier) : Notifier :=
  { u with
    now := t,
    toast := if u.timeouts.any (fun due => decide (due ≤ t)) then none else u.toast,
    timeouts := u.timeouts.filter (fun due => decide (t < due)) }

/-! ## `pages/Login.jsx` -/

/-- State of `Login`, with the state of `App` that `onLogin` acts on and the
due times and targets of the scheduled `navigate` callbacks. -/
structure LoginState where
  app : AppState
  email : String
  password : String
  error : String
  loading : Bool
  navigations : List (Nat × String)
  ui : Notifier
deriving DecidableEq, Repr

/-- Run a network action inside `Login`. -/
def LoginState.onNet {α : Type} (m : Act Net α) : Act LoginState α :=
  Act.lift (fun s => s.app.net) (fun n s => { s with app := { s.app with net := n } }) m

/-- Run the `onLogin` callback, which acts on `App`. -/
def LoginState.onApp {α : Type} (m : Act AppState α) : Act LoginState α :=
  Act.lift (fun s => s.app) (fun a s => { s with app := a }) m

/-- Helper `showToast` of `Login`. -/
def LoginState.showToast (message : String) (type : Option String) : Act LoginState Unit :=
  Act.modify (fun s => { s with ui := EWaste.showToast message type s.ui })

/-- Target of the navigation that `Login.submit` schedules on success. -/
def LoginState.home (role : String) : String :=
  if role = "admin" then "/admin" else if role = "recycler" then "/recycler" else "/dashboard"

/-- Handler `submit` of `Login`; `onLogin` is the callback prop. -/
def LoginState.submit (srv : Server) (onLogin : Act AppState Unit) : Act LoginState Unit :=
  fun s =>
    Act.bind (Act.modify (fun t => { t with error := "" })) (fun _ =>
      Act.bind (Act.modify (fun t => { t with loading := true })) (fun _ =>
        Act.tryFinally
          (Act.tryCatch
            (Act.bind (LoginState.onNet (login s.email s.password srv.login)) (fun _ =>
              Act.bind (LoginState.onApp onLogin) (fun _ =>
                Act.bind (LoginState.onNet (getMe srv.getMe)) (fun u =>
                  Act.bind (LoginState.showToast "Login successful!" (some "success")) (fun _ =>
                    Act.modify (fun t =>
                      { t with navigations :=
                          t.navigations ++ [(t.ui.now + 500, LoginState.home u.role)] }))))))
            (fun err =>
              Act.bind
                (Act.modify (fun t => { t with error := detailOr err "Invalid credentials" }))
                (fun _ =>
                  LoginState.showToast (detailOr err "Invalid credentials") (some "error"))))
          (Act.modify (fun t => { t with loading := false })))) s

/-- State of `Login` at mount, over a state of `App`. -/
def LoginState.init (app : AppState) : LoginState :=
  { app := app, email := "", password := "", error := "", loading := false, navigations := [],
    ui := Notifier.empty }

/-! ## Following redirects -/

/-- Target of the redirect that the route table holds for `path`, if the entry
of `path` is a redirect. -/
def redirectTarget (user : Option Identity) (path : String) : Option String :=
  match (routes user).lookup path with
  | some (Element.navigate target _) => some target
  | _ => none

/-- Path reached from `path` by following at most `n` redirects; it stops at
the first path whose entry is not a redirect. -/
def followRedirects (user : Option Identity) : Nat → String → String
  | 0, path => path
  | n + 1, path =>
    match redirectTarget user path with
    | some target => followRedirects user n target
    | none => path

/-- Server that accepts the login of `r@portal` with password `pw`, rejects
every other login without detail, and otherwise answers as
`Server.accepting`. -/
def Server.checking : Server :=
  { Server.accepting with
    login := fun c =>
      if c.data = [("email", "r@portal"), ("password", "pw")] then
        Except.ok { access_token := "fresh", rest := [] }
      else Except.error { status := some 401, detail := none } }

/-- Approved center whose `manager_user_id` is 0, used in examples. -/
def Center.managedByZero : Center :=
  { Center.sample with id := 6, manager_user_id := some 0 }

/-- State of `UserDashboard` with a file and a center selected, used in
examples. -/
def UserState.ready : UserState :=
  { UserState.init { token := some "tok", requests := [] } with
    file := some "tv.png", selectedCenter := some Center.sample }

/-! ## Route guard -/

/-- C1 (as stated) fails: with no allow-list an anonymous user is still sent to
the login screen, and an empty allow-list admits no identity, although in both
cases the stated condition "S is empty or none" holds. -/
theorem ProtectedRoute_unrestricted_not_always_rendered :
    ¬ (ProtectedRoute Element.userDashboard none none = Element.userDashboard ↔
        ((∃ u : Identity, (none : Option Identity) = some u ∧
            ∃ S, (none : Option (List String)) = some S ∧ u.role ∈ S) ∨
          (none : Option (List String)) = none ∨ (none : Option (List String)) = some [])) ∧
    ¬ (ProtectedRoute Element.userDashboard (some [])
          (some { id := 1, email := "a@b.c", name := none, role := "user" }) =
          Element.userDashboard ↔
        ((∃ u : Identity,
            some ({ id := 1, email := "a@b.c", name := none, role := "user" } : Identity) = some u ∧
            ∃ S, (some [] : Option (List String)) = some S ∧ u.role ∈ S) ∨
          (some [] : Option (List String)) = none ∨ (some [] : Option (List String)) = some [])) := by
  constructor
  · intro h
    have h1 := h.mpr (Or.inr (Or.inl rfl))
    simp [ProtectedRoute] at h1
  · intro h
    have h1 := h.mpr (Or.inr (Or.inr rfl))
    simp [ProtectedRoute] at h1

/-- C1 (amended): for children that are not themselves a redirect,
`ProtectedRoute` renders them exactly when the user is an identity and the
allow-list is absent or contains the identity's role; otherwise it returns a
replacing redirect. -/
theorem ProtectedRoute_renders_iff (children : Element) (allow : Option (List String))
    (user : Option Identity) (hc : ∀ t r, children ≠ Element.navigate t r) :
    (ProtectedRoute children allow user = children ↔
        ∃ u, user = some u ∧ (allow = none ∨ ∃ S, allow = some S ∧ u.role ∈ S)) ∧
    (ProtectedRoute children allow user = children ∨
        ∃ t, ProtectedRoute children allow user = Element.navigate t true) := by
  cases user with
  | none =>
    refine ⟨⟨fun h => absurd h.symm (hc _ _), fun ⟨u, hu, _⟩ => by simp at hu⟩, Or.inr ⟨"/login", rfl⟩⟩
  | some u =>
    cases allow with
    | none => exact ⟨⟨fun _ => ⟨u, rfl, Or.inl rfl⟩, fun _ => rfl⟩, Or.inl rfl⟩
    | some S =>
      by_cases hm : u.role ∈ S
      · have hr : ProtectedRoute children (some S) (some u) = children := by
          simp [ProtectedRoute, hm]
        exact ⟨⟨fun _ => ⟨u, rfl, Or.inr ⟨S, rfl, hm⟩⟩, fun _ => hr⟩, Or.inl hr⟩
      · have hr : ProtectedRoute children (some S) (some u) = Element.navigate "/" true := by
          simp [ProtectedRoute, hm]
        refine ⟨⟨fun h => absurd (hr ▸ h).symm (hc _ _), ?_⟩, Or.inr ⟨"/", hr⟩⟩
        rintro ⟨v, hv, h | ⟨T, hT, hvT⟩⟩
        · simp at h
        · cases hv
          cases hT
          exact absurd hvT hm

/-- Witness for C1 (amended): an `admin` identity at a route that allows
`admin` is shown the admin dashboard. -/
theorem ProtectedRoute_renders_iff_witness :
    (ProtectedRoute Element.adminDashboard (some ["admin"])
        (some { id := 7, email := "root@portal", name := none, role := "admin" }) =
        Element.adminDashboard ↔
      ∃ u, some ({ id := 7, email := "root@portal", name := none, role := "admin" } : Identity) =
          some u ∧
        ((some ["admin"] : Option (List String)) = none ∨
          ∃ S, (some ["admin"] : Option (List String)) = some S ∧ u.role ∈ S)) ∧
    (ProtectedRoute Element.adminDashboard (some ["admin"])
        (some { id := 7, email := "root@portal", name := none, role := "admin" }) =
        Element.adminDashboard ∨
      ∃ t, ProtectedRoute Element.adminDashboard (some ["admin"])
        (some { id := 7, email := "root@portal", name := none, role := "admin" }) =
        Element.navigate t true) :=
  ProtectedRoute_renders_iff Element.adminDashboard (some ["admin"])
    (some { id := 7, email := "root@portal", name := none, role := "admin" })
    (fun _ _ h => Element.noConfusion h)

/-- C2: when `ProtectedRoute` does not return its children, the result is the
redirect to `/login` for an anonymous user and the redirect to `/` for an
identity whose role is not in the allow-list; it is never a redirect to
`/dashboard`, `/recycler` or `/admin`. -/
theorem ProtectedRoute_redirect_target (children : Element) (allow : Option (List String))
    (user : Option Identity) (h : ProtectedRoute children allow user ≠ children) :
    ((user = none ∧ ProtectedRoute children allow user = Element.navigate "/login" true) ∨
      (∃ u S, user = some u ∧ allow = some S ∧ u.role ∉ S ∧
        ProtectedRoute children allow user = Element.navigate "/" true)) ∧
    ∀ p r, p ∈ protectedPaths → ProtectedRoute children allow user ≠ Element.navigate p r := by
  have key : (user = none ∧ ProtectedRoute children allow user = Element.navigate "/login" true) ∨
      (∃ u S, user = some u ∧ allow = some S ∧ u.role ∉ S ∧
        ProtectedRoute children allow user = Element.navigate "/" true) := by
    cases user with
    | none => exact Or.inl ⟨rfl, rfl⟩
    | some u =>
      cases allow with
      | none => exact absurd rfl h
      | some S =>
        by_cases hm : u.role ∈ S
        · exact absurd (by simp [ProtectedRoute, hm]) h
        · exact Or.inr ⟨u, S, rfl, rfl, hm, by simp [ProtectedRoute, hm]⟩
  refine ⟨key, ?_⟩
  intro p r hp heq
  rcases key with ⟨_, hk⟩ | ⟨_, _, _, _, _, hk⟩
  · rw [hk] at heq
    injection heq with h1 _
    subst h1
    simp [protectedPaths] at hp
  · rw [hk] at heq
    injection heq with h1 _
    subst h1
    simp [protectedPaths] at hp

/-- Witness for C2: a `user` identity at the admin route is sent to `/`. -/
theorem ProtectedRoute_redirect_target_witness :
    ((some ({ id := 3, email := "u@portal", name := none, role := "user" } : Identity) = none ∧
        ProtectedRoute Element.adminDashboard (some ["admin"])
          (some { id := 3, email := "u@portal", name := none, role := "user" }) =
          Element.navigate "/login" true) ∨
      (∃ u S, some ({ id := 3, email := "u@portal", name := none, role := "user" } : Identity) =
          some u ∧ (some ["admin"] : Option (List String)) = some S ∧ u.role ∉ S ∧
        ProtectedRoute Element.adminDashboard (some ["admin"])
          (some { id := 3, email := "u@portal", name := none, role := "user" }) =
          Element.navigate "/" true)) ∧
    ∀ p r, p ∈ protectedPaths →
      ProtectedRoute Element.adminDashboard (some ["admin"])
        (some { id := 3, email := "u@portal", name := none, role := "user" }) ≠
        Element.navigate p r :=
  ProtectedRoute_redirect_target Element.adminDashboard (some ["admin"])
    (some { id := 3, email := "u@portal", name := none, role := "user" })
    (by simp [ProtectedRoute])

/-- C3: in the route table each dashboard occurs only under its own path and
only for an identity with the matching role; the entry of a protected path is
the redirect to `/login` for an anonymous user and the redirect to `/` for
every identity with another role, known or not. -/
theorem routes_role_gated (user : Option Identity) :
    (∀ p, (p, Element.userDashboard) ∈ routes user ↔
        p = "/dashboard" ∧ ∃ u, user = some u ∧ u.role = "user") ∧
    (∀ p, (p, Element.recyclerDashboard) ∈ routes user ↔
        p = "/recycler" ∧ ∃ u, user = some u ∧ u.role = "recycler") ∧
    (∀ p, (p, Element.adminDashboard) ∈ routes user ↔
        p = "/admin" ∧ ∃ u, user = some u ∧ u.role = "admin") ∧
    (routes user).lookup "/dashboard" = some
      (match user with
        | none => Element.navigate "/login" true
        | some u => if u.role = "user" then Element.userDashboard
            else Element.navigate "/" true) ∧
    (routes user).lookup "/recycler" = some
      (match user with
        | none => Element.navigate "/login" true
        | some u => if u.role = "recycler" then Element.recyclerDashboard
            else Element.navigate "/" true) ∧
    (routes user).lookup "/admin" = some
      (match user with
        | none => Element.navigate "/login" true
        | some u => if u.role = "admin" then Element.adminDashboard
            else Element.navigate "/" true) := by
  cases user with
  | none =>
    simp [routes, ProtectedRoute, rootElement, List.lookup]
  | some u =>
    by_cases h1 : u.role = "user"
    · simp [routes, ProtectedRoute, rootElement, List.lookup, h1]
    · by_cases h2 : u.role = "recycler"
      · simp [routes, ProtectedRoute, rootElement, List.lookup, h2]
      · by_cases h3 : u.role = "admin"
        · simp [routes, ProtectedRoute, rootElement, List.lookup, h3]
        · simp [routes, ProtectedRoute, rootElement, List.lookup, h1, h2, h3]

/-- C4: the entry of the root path is `rootElement`; for an identity it is the
redirect to `/admin` for role `admin`, to `/recycler` for role `recycler` and
to `/dashboard` for role `user`, for an anonymous user it is the welcome
content, and two identities with the same role get the same element. -/
theorem rootElement_dispatch_on_role (u v : Identity) (h : u.role = v.role) :
    rootElement (some u) = rootElement (some v) ∧
    rootElement (some { u with role := "admin" }) = Element.navigate "/admin" false ∧
    rootElement (some { u with role := "recycler" }) = Element.navigate "/recycler" false ∧
    rootElement (some { u with role := "user" }) = Element.navigate "/dashboard" false ∧
    rootElement none = Element.welcome ∧
    (∀ user, (routes user).lookup "/" = some (rootElement user)) ∧
    (∀ pathMatch s, s.loading = false → pathMatch "/" s.location = true →
      App pathMatch s = View.layout s.user (some (rootElement s.user))) := by
  refine ⟨by simp [rootElement, h], by simp [rootElement], by simp [rootElement],
    by simp [rootElement], rfl, fun user => by simp [routes, List.lookup], ?_⟩
  intro pathMatch s hl hm
  simp [App, hl, routes, List.find?, hm]

/-- Witness for C4: two identities that differ in everything but the role. -/
theorem rootElement_dispatch_on_role_witness :
    rootElement (some { id := 1, email := "a@portal", name := none, role := "recycler" }) =
      rootElement (some { id := 2, email := "b@portal", name := some "B", role := "recycler" }) ∧
    rootElement (some { ({ id := 1, email := "a@portal", name := none, role := "recycler" } :
        Identity) with role := "admin" }) = Element.navigate "/admin" false ∧
    rootElement (some { ({ id := 1, email := "a@portal", name := none, role := "recycler" } :
        Identity) with role := "recycler" }) = Element.navigate "/recycler" false ∧
    rootElement (some { ({ id := 1, email := "a@portal", name := none, role := "recycler" } :
        Identity) with role := "user" }) = Element.navigate "/dashboard" false ∧
    rootElement none = Element.welcome ∧
    (∀ user, (routes user).lookup "/" = some (rootElement user)) ∧
    (∀ pathMatch s, s.loading = false → pathMatch "/" s.location = true →
      App pathMatch s = View.layout s.user (some (rootElement s.user))) :=
  rootElement_dispatch_on_role
    { id := 1, email := "a@portal", name := none, role := "recycler" }
    { id := 2, email := "b@portal", name := some "B", role := "recycler" } rfl

/-! ## Session manager -/

/-- Effect of `loadMe` in full: it returns normally, sends the `getMe` request,
stores the fetched identity (or `null` on failure), lowers `loading`, and
leaves the token and the location alone. -/
theorem loadMe_effect (answer : Config → Except ApiError Identity) (s : AppState) :
    loadMe answer s =
      (Except.ok (),
        { net := (getMe answer s.net).2,
          user := (getMe answer s.net).1.toOption,
          loading := false,
          location := s.location }) := by
  unfold loadMe Act.tryFinally Act.tryCatch Act.bind onNet setUser setLoading
  cases h : (getMe answer s.net).1 <;>
    simp [h, Except.toOption]

/-- Request `getMe` sends exactly one request and never writes the token. -/
theorem getMe_net (answer : Config → Except ApiError Identity) (n : Net) :
    (getMe answer n).2.token = n.token ∧
    (getMe answer n).2.requests = n.requests ++
      [requestInterceptor n.token
        (baseConfig "get" "/users/me" [])] ∧
    (getMe answer n).1 = answer (requestInterceptor n.token
        (baseConfig "get" "/users/me" [])) := by
  simp [getMe, apiGet]

/-- The session is anonymous and without token after any run that ends in
`logout`. -/
theorem runOps_logout_last (ops : List SessionOp) (s : AppState) :
    (runOps (ops ++ [SessionOp.logout]) s).user = none ∧
    (runOps (ops ++ [SessionOp.logout]) s).net.token = none ∧
    (runOps (ops ++ [SessionOp.logout]) s).location = "/login" := by
  simp [runOps, List.foldl_append, SessionOp.run, logout]

/-- C5: `logout` returns normally and leaves no token and no user, from every
state; after any sequence of `loadMe` and `logout` calls that ends in `logout`
the session is anonymous, the token store is empty, the location is `/login`,
and the entry of each protected path is the redirect to `/login`. -/
theorem logout_ends_anonymous (s : AppState) (ops : List SessionOp) :
    (logout s).1 = Except.ok () ∧
    (logout s).2.net.token = none ∧
    (logout s).2.user = none ∧
    (logout s).2.loading = s.loading ∧
    (runOps (ops ++ [SessionOp.logout]) s).user = none ∧
    (runOps (ops ++ [SessionOp.logout]) s).net.token = none ∧
    (runOps (ops ++ [SessionOp.logout]) s).location = "/login" ∧
    protectedPaths.map (fun p => (routes (runOps (ops ++ [SessionOp.logout]) s).user).lookup p) =
      [some (Element.navigate "/login" true), some (Element.navigate "/login" true),
        some (Element.navigate "/login" true)] := by
  obtain ⟨hu, ht, hl⟩ := runOps_logout_last ops s
  refine ⟨rfl, rfl, rfl, rfl, hu, ht, hl, ?_⟩
  rw [hu]
  simp [protectedPaths, routes, ProtectedRoute, List.lookup]

/-- C6 (as stated) fails: with an empty token store the bootstrap still sends
`GET /users/me`, and if the server answers with an identity that identity
becomes the user. -/
theorem bootstrap_without_token_still_fetches :
    (bootstrap (fun _ => Except.ok { id := 5, email := "e@portal", name := none, role := "admin" })
        { token := none, requests := [] } "/").2.net.requests =
      [baseConfig "get" "/users/me" []] ∧
    (bootstrap (fun _ => Except.ok { id := 5, email := "e@portal", name := none, role := "admin" })
        { token := none, requests := [] } "/").2.user =
      some { id := 5, email := "e@portal", name := none, role := "admin" } := by
  simp [bootstrap, loadMe_effect, getMe_net, App.init, requestInterceptor, Except.toOption]

/-- C6 (amended): with an empty token store the bootstrap sends one
`GET /users/me` without an `Authorization` header, ends with `loading = false`
and an empty token store, and the user is the fetched identity if the request
succeeds and `null` if it fails. -/
theorem bootstrap_without_token (answer : Config → Except ApiError Identity) (net : Net)
    (location : String) (h : net.token = none) :
    (bootstrap answer net location).1 = Except.ok () ∧
    (bootstrap answer net location).2.net.requests = net.requests ++
      [baseConfig "get" "/users/me" []] ∧
    (bootstrap answer net location).2.loading = false ∧
    (bootstrap answer net location).2.net.token = none ∧
    (bootstrap answer net location).2.user =
      (answer (baseConfig "get" "/users/me" [])).toOption := by
  simp [bootstrap, loadMe_effect, getMe_net, App.init, requestInterceptor, h]

/-- Witness for C6 (amended): a server that rejects the request without
credentials. -/
theorem bootstrap_without_token_witness :
    (bootstrap (fun _ => Except.error { status := some 401, detail := some "Not authenticated" })
        { token := none, requests := [] } "/dashboard").1 = Except.ok () ∧
    (bootstrap (fun _ => Except.error { status := some 401, detail := some "Not authenticated" })
        { token := none, requests := [] } "/dashboard").2.net.requests = [] ++
      [baseConfig "get" "/users/me" []] ∧
    (bootstrap (fun _ => Except.error { status := some 401, detail := some "Not authenticated" })
        { token := none, requests := [] } "/dashboard").2.loading = false ∧
    (bootstrap (fun _ => Except.error { status := some 401, detail := some "Not authenticated" })
        { token := none, requests := [] } "/dashboard").2.net.token = none ∧
    (bootstrap (fun _ => Except.error { status := some 401, detail := some "Not authenticated" })
        { token := none, requests := [] } "/dashboard").2.user =
      (((fun _ => Except.error { status := some 401, detail := some "Not authenticated" }) :
          Config → Except ApiError Identity) (baseConfig "get" "/users/me" [])).toOption :=
  bootstrap_without_token
    (fun _ => Except.error { status := some 401, detail := some "Not authenticated" })
    { token := none, requests := [] } "/dashboard" rfl

/-- C7 (as stated) fails: the identity fetch is rejected with status 401, the
user becomes `null`, yet the stored token is still in the token store after
`loadMe`. -/
theorem loadMe_failure_keeps_token :
    (getMe (fun _ => Except.error { status := some 401, detail := some "Could not validate" })
        { token := some "stale", requests := [] }).1 =
      Except.error { status := some 401, detail := some "Could not validate" } ∧
    (loadMe (fun _ => Except.error { status := some 401, detail := some "Could not validate" })
        { net := { token := some "stale", requests := [] }, user := none, loading := true,
          location := "/" }).2.net.token = some "stale" ∧
    (loadMe (fun _ => Except.error { status := some 401, detail := some "Could not validate" })
        { net := { token := some "stale", requests := [] }, user := none, loading := true,
          location := "/" }).2.net.token ≠ none := by
  simp [loadMe_effect, getMe_net]

/-- C7 (amended): when the identity fetch fails, with whatever error, `loadMe`
returns normally with `user = null` and `loading = false`, and the token store
holds what it held before. -/
theorem loadMe_failure (answer : Config → Except ApiError Identity) (s : AppState)
    (e : ApiError) (h : (getMe answer s.net).1 = Except.error e) :
    (loadMe answer s).1 = Except.ok () ∧
    (loadMe answer s).2.user = none ∧
    (loadMe answer s).2.loading = false ∧
    (loadMe answer s).2.net.token = s.net.token := by
  simp [loadMe_effect, h, Except.toOption, (getMe_net answer s.net).1]

/-- Witness for C7 (amended): a network error (no status, no detail) while an
identity is shown and a token is stored. -/
theorem loadMe_failure_witness :
    (loadMe (fun _ => Except.error { status := none, detail := none })
        { net := { token := some "t0", requests := [] },
          user := some { id := 1, email := "a@portal", name := none, role := "user" },
          loading := false, location := "/dashboard" }).1 = Except.ok () ∧
    (loadMe (fun _ => Except.error { status := none, detail := none })
        { net := { token := some "t0", requests := [] },
          user := some { id := 1, email := "a@portal", name := none, role := "user" },
          loading := false, location := "/dashboard" }).2.user = none ∧
    (loadMe (fun _ => Except.error { status := none, detail := none })
        { net := { token := some "t0", requests := [] },
          user := some { id := 1, email := "a@portal", name := none, role := "user" },
          loading := false, location := "/dashboard" }).2.loading = false ∧
    (loadMe (fun _ => Except.error { status := none, detail := none })
        { net := { token := some "t0", requests := [] },
          user := some { id := 1, email := "a@portal", name := none, role := "user" },
          loading := false, location := "/dashboard" }).2.net.token =
      (({ net := { token := some "t0", requests := [] },
          user := some { id := 1, email := "a@portal", name := none, role := "user" },
          loading := false, location := "/dashboard" } : AppState)).net.token :=
  loadMe_failure (fun _ => Except.error { status := none, detail := none })
    { net := { token := some "t0", requests := [] },
      user := some { id := 1, email := "a@portal", name := none, role := "user" },
      loading := false, location := "/dashboard" }
    { status := none, detail := none } (by simp [getMe_net])

/-- C8: when the identity fetch succeeds with `res`, `loadMe` ends with
`user = res` and `loading = false`; and `loadMe` returns normally for every
answer of the server, success or failure. -/
theorem loadMe_success (answer : Config → Except ApiError Identity) (s : AppState)
    (res : Identity) (h : (getMe answer s.net).1 = Except.ok res) :
    (loadMe answer s).2.user = some res ∧
    (loadMe answer s).2.loading = false ∧
    (∀ (answer2 : Config → Except ApiError Identity) (s2 : AppState),
      (loadMe answer2 s2).1 = Except.ok ()) := by
  refine ⟨by simp [loadMe_effect, h, Except.toOption], by simp [loadMe_effect], ?_⟩
  intro answer2 s2
  simp [loadMe_effect]

/-- Witness for C8: the server answers the bearer of token `t1` with a
recycler identity. -/
theorem loadMe_success_witness :
    (loadMe (fun _ => Except.ok { id := 9, email := "r@portal", name := some "R", role := "recycler" })
        (App.init { token := some "t1", requests := [] } "/login")).2.user =
      some { id := 9, email := "r@portal", name := some "R", role := "recycler" } ∧
    (loadMe (fun _ => Except.ok { id := 9, email := "r@portal", name := some "R", role := "recycler" })
        (App.init { token := some "t1", requests := [] } "/login")).2.loading = false ∧
    (∀ (answer2 : Config → Except ApiError Identity) (s2 : AppState),
      (loadMe answer2 s2).1 = Except.ok ()) :=
  loadMe_success
    (fun _ => Except.ok { id := 9, email := "r@portal", name := some "R", role := "recycler" })
    (App.init { token := some "t1", requests := [] } "/login")
    { id := 9, email := "r@portal", name := some "R", role := "recycler" }
    (by simp [getMe_net])

/-- C9: if the second identity fetch has the same outcome as the first, two
`loadMe` calls in a row end in the same user, loading flag and token as one
call; this is in particular so when the server answers both calls by the same
rule, because `loadMe` does not change the token that the request carries. -/
theorem loadMe_twice (a1 a2 : Config → Except ApiError Identity) (s : AppState)
    (h : (getMe a2 (loadMe a1 s).2.net).1 = (getMe a1 s.net).1) :
    sessionTriple (loadMe a2 (loadMe a1 s).2).2 = sessionTriple (loadMe a1 s).2 ∧
    sessionTriple (loadMe a1 (loadMe a1 s).2).2 = sessionTriple (loadMe a1 s).2 := by
  constructor
  · rw [loadMe_effect a2, sessionTriple, sessionTriple, h]
    simp [loadMe_effect, getMe_net]
  · simp [sessionTriple, loadMe_effect, getMe_net]

/-- Witness for C9: both fetches fail, with differently worded answers of the
same outcome, from a state that shows an identity. -/
theorem loadMe_twice_witness :
    sessionTriple
        (loadMe (fun c => if c.headers.Authorization = some "Bearer t2" then
              Except.error { status := some 401, detail := none }
            else Except.error { status := some 500, detail := none })
          (loadMe (fun _ => Except.error { status := some 401, detail := none })
            { net := { token := some "t2", requests := [] },
              user := some { id := 1, email := "a@portal", name := none, role := "user" },
              loading := true, location := "/" }).2).2 =
      sessionTriple
        (loadMe (fun _ => Except.error { status := some 401, detail := none })
          { net := { token := some "t2", requests := [] },
            user := some { id := 1, email := "a@portal", name := none, role := "user" },
            loading := true, location := "/" }).2 ∧
    sessionTriple
        (loadMe (fun _ => Except.error { status := some 401, detail := none })
          (loadMe (fun _ => Except.error { status := some 401, detail := none })
            { net := { token := some "t2", requests := [] },
              user := some { id := 1, email := "a@portal", name := none, role := "user" },
              loading := true, location := "/" }).2).2 =
      sessionTriple
        (loadMe (fun _ => Except.error { status := some 401, detail := none })
          { net := { token := some "t2", requests := [] },
            user := some { id := 1, email := "a@portal", name := none, role := "user" },
            loading := true, location := "/" }).2 :=
  loadMe_twice (fun _ => Except.error { status := some 401, detail := none })
    (fun c => if c.headers.Authorization = some "Bearer t2" then
        Except.error { status := some 401, detail := none }
      else Except.error { status := some 500, detail := none })
    { net := { token := some "t2", requests := [] },
      user := some { id := 1, email := "a@portal", name := none, role := "user" },
      loading := true, location := "/" }
    (by simp [loadMe_effect, getMe_net, requestInterceptor, baseConfig])

/-- C10: `App` mounts with `loading = true`; while `loading` is true it returns
the loading indicator whatever the location, the user and the matcher are, so
no route element and no redirect is produced; and of the session calls only a
`loadMe` call lowers `loading`, `logout` leaves it as it is. -/
theorem App_unresolved_shows_loading (pathMatch : String → String → Bool) (s : AppState)
    (op : SessionOp) (h : s.loading = true) :
    (∀ net location, (App.init net location).loading = true) ∧
    App pathMatch s = View.loadingIndicator ∧
    (∀ navUser outlet, App pathMatch s ≠ View.layout navUser outlet) ∧
    ((op.run s).loading = false ↔ ∃ answer, op = SessionOp.loadMe answer) := by
  have hv : App pathMatch s = View.loadingIndicator := by simp [App, h]
  refine ⟨fun _ _ => rfl, hv, fun _ _ => by simp [hv], ?_⟩
  cases op with
  | loadMe answer => simp [SessionOp.run, loadMe_effect]
  | logout => simp [SessionOp.run, logout, h]

/-- Witness for C10: the state at mount on `/admin`, and a `logout` call. -/
theorem App_unresolved_shows_loading_witness :
    (∀ net location, (App.init net location).loading = true) ∧
    App exactPath (App.init { token := some "t3", requests := [] } "/admin") =
      View.loadingIndicator ∧
    (∀ navUser outlet, App exactPath (App.init { token := some "t3", requests := [] } "/admin") ≠
      View.layout navUser outlet) ∧
    ((SessionOp.logout.run (App.init { token := some "t3", requests := [] } "/admin")).loading =
      false ↔ ∃ answer, SessionOp.logout = SessionOp.loadMe answer) :=
  App_unresolved_shows_loading exactPath (App.init { token := some "t3", requests := [] } "/admin")
    SessionOp.logout rfl

/-! ## API gateway client -/

/-- The interceptor changes nothing but the `Authorization` header. -/
theorem requestInterceptor_fields (token : Option String) (config : Config) :
    (requestInterceptor token config).method = config.method ∧
    (requestInterceptor token config).url = config.url ∧
    (requestInterceptor token config).data = config.data ∧
    (requestInterceptor token config).headers.rest = config.headers.rest := by
  unfold requestInterceptor
  cases token with
  | none => simp
  | some t => by_cases h : t = "" <;> simp [h]

/-- C11: with a non-empty stored token the interceptor returns the config with
`Authorization` set to `Bearer ` followed by the token and every other field
as it was; with no token or the empty token it returns the config as it
was. -/
theorem requestInterceptor_bearer (config : Config) (t : String) (h : t ≠ "") :
    (requestInterceptor (some t) config).headers.Authorization = some ("Bearer " ++ t) ∧
    requestInterceptor (some t) config =
      { config with headers := { config.headers with Authorization := some ("Bearer " ++ t) } } ∧
    (requestInterceptor (some t) config).headers.rest = config.headers.rest ∧
    (requestInterceptor (some t) config).method = config.method ∧
    (requestInterceptor (some t) config).url = config.url ∧
    (requestInterceptor (some t) config).data = config.data ∧
    requestInterceptor none config = config ∧
    requestInterceptor (some "") config = config := by
  simp [requestInterceptor, h]

/-- Witness for C11: token `abc` on a request that already carries headers. -/
theorem requestInterceptor_bearer_witness :
    (requestInterceptor (some "abc") Config.sample).headers.Authorization =
      some ("Bearer " ++ "abc") ∧
    requestInterceptor (some "abc") Config.sample =
      { Config.sample with
        headers := { Config.sample.headers with Authorization := some ("Bearer " ++ "abc") } } ∧
    (requestInterceptor (some "abc") Config.sample).headers.rest = Config.sample.headers.rest ∧
    (requestInterceptor (some "abc") Config.sample).method = Config.sample.method ∧
    (requestInterceptor (some "abc") Config.sample).url = Config.sample.url ∧
    (requestInterceptor (some "abc") Config.sample).data = Config.sample.data ∧
    requestInterceptor none Config.sample = Config.sample ∧
    requestInterceptor (some "") Config.sample = Config.sample :=
  requestInterceptor_bearer Config.sample "abc" (by decide)

/-- A `get` call returns the server's answer to the intercepted config, logs
that config, and leaves the token alone. -/
theorem apiGet_effect {α : Type} (url : String) (answer : Config → Except ApiError α)
    (n : Net) :
    apiGet url answer n =
      (answer (requestInterceptor n.token (baseConfig "get" url [])),
        { token := n.token,
          requests := n.requests ++ [requestInterceptor n.token (baseConfig "get" url [])] }) := by
  rfl

/-- A `post` call returns the server's answer to the intercepted config, logs
that config, and leaves the token alone. -/
theorem apiPost_effect {α : Type} (url : String) (data : List (String × String))
    (answer : Config → Except ApiError α) (n : Net) :
    apiPost url data answer n =
      (answer (requestInterceptor n.token (baseConfig "post" url data)),
        { token := n.token,
          requests := n.requests ++ [requestInterceptor n.token (baseConfig "post" url data)] }) := by
  rfl

/-- C13: `login` sends one post to `/auth/login-json` with the email and the
password; its outcome is the server's answer (the body on success, the error
on failure); afterwards the token store holds the `access_token` of the body
on success and what it held before on failure. -/
theorem login_effect (email password : String) (answer : Config → Except ApiError LoginResponse)
    (n : Net) :
    (login email password answer n).1 =
      answer (requestInterceptor n.token
        (baseConfig "post" "/auth/login-json" [("email", email), ("password", password)])) ∧
    (login email password answer n).2.token =
      (match answer (requestInterceptor n.token
          (baseConfig "post" "/auth/login-json" [("email", email), ("password", password)])) with
        | Except.ok res => some res.access_token
        | Except.error _ => n.token) ∧
    (login email password answer n).2.requests = n.requests ++
      [requestInterceptor n.token
        (baseConfig "post" "/auth/login-json" [("email", email), ("password", password)])] := by
  unfold login Act.bind
  rw [apiPost_effect]
  cases answer (requestInterceptor n.token
      (baseConfig "post" "/auth/login-json" [("email", email), ("password", password)])) <;>
    simp

/-! ## Synchronization protocol: loads -/

/-- Effect of `AdminDashboard.load` in full, by the outcome of its two reads. -/
theorem AdminState_load_effect (srv : Server) (s : AdminState) :
    AdminState.load srv s =
      (Except.ok (),
        match srv.listCenters (outgoing s.net.token "get" "/recyclers/centers" []) with
        | Except.error e =>
          { s with
            net := { s.net with requests := s.net.requests ++
              [outgoing s.net.token "get" "/recyclers/centers" []] },
            loading := false,
            ui := showToast (detailOr e "Failed to load data") (some "error") s.ui }
        | Except.ok c =>
          match srv.analyticsOverview (outgoing s.net.token "get" "/analytics/overview" []) with
          | Except.error e =>
            { s with
              net := { s.net with requests := s.net.requests ++
                [outgoing s.net.token "get" "/recyclers/centers" [],
                  outgoing s.net.token "get" "/analytics/overview" []] },
              centers := c,
              loading := false,
              ui := showToast (detailOr e "Failed to load data") (some "error") s.ui }
          | Except.ok a =>
            { s with
              net := { s.net with requests := s.net.requests ++
                [outgoing s.net.token "get" "/recyclers/centers" [],
                  outgoing s.net.token "get" "/analytics/overview" []] },
              centers := c,
              analytics := some a,
              loading := false }) := by
  simp only [AdminState.load, AdminState.onNet, AdminState.showToast, Act.bind, Act.tryFinally,
    Act.tryCatch, Act.modify, Act.lift, listCenters, analyticsOverview, apiGet_effect, outgoing]
  cases h1 : srv.listCenters
      (requestInterceptor s.net.token (baseConfig "get" "/recyclers/centers" [])) with
  | error e => simp
  | ok c =>
    cases h2 : srv.analyticsOverview
        (requestInterceptor s.net.token (baseConfig "get" "/analytics/overview" [])) with
    | error e => simp [h2]
    | ok a => simp [h2]

/-- Effect of `RecyclerDashboard.loadDashboard` in full, by the outcome of its
three reads. -/
theorem RecyclerState_loadDashboard_effect (srv : Server) (s : RecyclerState) :
    RecyclerState.loadDashboard srv s =
      (Except.ok (),
        match srv.getMe (outgoing s.net.token "get" "/users/me" []) with
        | Except.error e =>
          { s with
            net := { s.net with requests := s.net.requests ++
              [outgoing s.net.token "get" "/users/me" []] },
            loading := false,
            ui := showToast (detailOr e "Failed to load dashboard") (some "error") s.ui }
        | Except.ok me =>
          match srv.listCenters (outgoing s.net.token "get" "/recyclers/centers" []) with
          | Except.error e =>
            { s with
              net := { s.net with requests := s.net.requests ++
                [outgoing s.net.token "get" "/users/me" [],
                  outgoing s.net.token "get" "/recyclers/centers" []] },
              loading := false,
              ui := showToast (detailOr e "Failed to load dashboard") (some "error") s.ui }
          | Except.ok c =>
            match srv.recyclerAssigned (outgoing s.net.token "get" "/recyclers/assigned" []) with
            | Except.error e =>
              { s with
                net := { s.net with requests := s.net.requests ++
                  [outgoing s.net.token "get" "/users/me" [],
                    outgoing s.net.token "get" "/recyclers/centers" [],
                    outgoing s.net.token "get" "/recyclers/assigned" []] },
                centers := c,
                claimedCenters := c.filter (fun x => managedBy me x),
                availableCenters :=
                  c.filter (fun x => x.approved && (noManager x || managedBy me x)),
                loading := false,
                ui := showToast (detailOr e "Failed to load dashboard") (some "error") s.ui }
            | Except.ok r =>
              { s with
                net := { s.net with requests := s.net.requests ++
                  [outgoing s.net.token "get" "/users/me" [],
                    outgoing s.net.token "get" "/recyclers/centers" [],
                    outgoing s.net.token "get" "/recyclers/assigned" []] },
                centers := c,
                claimedCenters := c.filter (fun x => managedBy me x),
                availableCenters :=
                  c.filter (fun x => x.approved && (noManager x || managedBy me x)),
                items := r,
                loading := false }) := by
  simp only [RecyclerState.loadDashboard, RecyclerState.onNet, RecyclerState.showToast, Act.bind,
    Act.tryFinally, Act.tryCatch, Act.modify, Act.lift, listCenters, recyclerAssigned, getMe,
    apiGet_effect, outgoing]
  cases h0 : srv.getMe (requestInterceptor s.net.token (baseConfig "get" "/users/me" [])) with
  | error e => simp
  | ok me =>
    cases h1 : srv.listCenters
        (requestInterceptor s.net.token (baseConfig "get" "/recyclers/centers" [])) with
    | error e => simp [h1]
    | ok c =>
      cases h2 : srv.recyclerAssigned
          (requestInterceptor s.net.token (baseConfig "get" "/recyclers/assigned" [])) with
      | error e => simp [h1, h2]
      | ok r => simp [h1, h2]

/-- Effect of `UserDashboard.loadData` in full, by the outcome of its three
reads: it throws the error of the first read that fails. -/
theorem UserState_loadData_effect (srv : Server) (s : UserState) :
    UserState.loadData srv s =
      (match srv.listCenters (outgoing s.net.token "get" "/recyclers/centers" []) with
        | Except.error e =>
          (Except.error e,
            { s with
              net := { s.net with requests := s.net.requests ++
                [outgoing s.net.token "get" "/recyclers/centers" []] } })
        | Except.ok c =>
          match srv.userHistory (outgoing s.net.token "get" "/reports/history" []) with
          | Except.error e =>
            (Except.error e,
              { s with
                net := { s.net with requests := s.net.requests ++
                  [outgoing s.net.token "get" "/recyclers/centers" [],
                    outgoing s.net.token "get" "/reports/history" []] },
                centers := c })
          | Except.ok h =>
            match srv.getUserStats (outgoing s.net.token "get" "/users/stats" []) with
            | Except.error e =>
              (Except.error e,
                { s with
                  net := { s.net with requests := s.net.requests ++
                    [outgoing s.net.token "get" "/recyclers/centers" [],
                      outgoing s.net.token "get" "/reports/history" [],
                      outgoing s.net.token "get" "/users/stats" []] },
                  centers := c,
                  history := h })
            | Except.ok st =>
              (Except.ok (),
                { s with
                  net := { s.net with requests := s.net.requests ++
                    [outgoing s.net.token "get" "/recyclers/centers" [],
                      outgoing s.net.token "get" "/reports/history" [],
                      outgoing s.net.token "get" "/users/stats" []] },
                  centers := c,
                  history := h,
                  stats := some st })) := by
  simp only [UserState.loadData, UserState.onNet, Act.bind, Act.modify, Act.lift, listCenters,
    userHistory, getUserStats, apiGet_effect, outgoing]
  cases h0 : srv.listCenters
      (requestInterceptor s.net.token (baseConfig "get" "/recyclers/centers" [])) with
  | error e => simp
  | ok c =>
    cases h1 : srv.userHistory
        (requestInterceptor s.net.token (baseConfig "get" "/reports/history" [])) with
    | error e => simp [h1]
    | ok h =>
      cases h2 : srv.getUserStats
          (requestInterceptor s.net.token (baseConfig "get" "/users/stats" [])) with
      | error e => simp [h1, h2]
      | ok st => simp [h1, h2]

/-- C12 (as stated) fails: every request is rejected with status 401, and
after `listCenters` and after the error handling of `loadDashboard` the token
store still holds the token. -/
theorem authorization_failure_keeps_token :
    (listCenters (Server.rejecting { status := some 401, detail := some "Not authenticated" }).listCenters
        { token := some "tok", requests := [] }).1 =
      Except.error { status := some 401, detail := some "Not authenticated" } ∧
    (listCenters (Server.rejecting { status := some 401, detail := some "Not authenticated" }).listCenters
        { token := some "tok", requests := [] }).2.token = some "tok" ∧
    (RecyclerState.loadDashboard
        (Server.rejecting { status := some 401, detail := some "Not authenticated" })
        (RecyclerState.init { token := some "tok", requests := [] })).2.net.token = some "tok" ∧
    (RecyclerState.loadDashboard
        (Server.rejecting { status := some 401, detail := some "Not authenticated" })
        (RecyclerState.init { token := some "tok", requests := [] })).2.net.token ≠ none := by
  simp [RecyclerState_loadDashboard_effect, Server.rejecting, RecyclerState.init, listCenters,
    apiGet_effect]

/-- C12 (amended): no answer of the server, an authorization error included,
changes the token store: after a `get` or `post` call, after `listCenters`,
`recyclerAssigned` and `createReport`, and after `loadDashboard` and `load`
with their error handling, the token is the one held before. -/
theorem request_outcome_keeps_token {α : Type} (srv : Server) (n : Net) (url : String)
    (data : List (String × String)) (answer : Config → Except ApiError α) (file : String)
    (recyclerId : Option Nat) (sr : RecyclerState) (sa : AdminState) :
    (apiGet url answer n).2.token = n.token ∧
    (apiPost url data answer n).2.token = n.token ∧
    (listCenters srv.listCenters n).2.token = n.token ∧
    (recyclerAssigned srv.recyclerAssigned n).2.token = n.token ∧
    (createReport file recyclerId srv.createReport n).2.token = n.token ∧
    (RecyclerState.loadDashboard srv sr).2.net.token = sr.net.token ∧
    (AdminState.load srv sa).2.net.token = sa.net.token := by
  refine ⟨rfl, rfl, rfl, rfl, rfl, ?_, ?_⟩
  · rw [RecyclerState_loadDashboard_effect]
    cases srv.getMe (outgoing sr.net.token "get" "/users/me" []) <;>
      cases srv.listCenters (outgoing sr.net.token "get" "/recyclers/centers" []) <;>
        cases srv.recyclerAssigned (outgoing sr.net.token "get" "/recyclers/assigned" []) <;> rfl
  · rw [AdminState_load_effect]
    cases srv.listCenters (outgoing sa.net.token "get" "/recyclers/centers" []) <;>
      cases srv.analyticsOverview (outgoing sa.net.token "get" "/analytics/overview" []) <;> rfl

/-- C14 (as stated) fails: `listCenters` succeeds and `analyticsOverview` is
rejected; after `load` the centers are the fetched ones, not the ones held
before, while the analytics are the old ones. -/
theorem AdminState_load_not_atomic :
    (AdminState.load
        { Server.rejecting { status := some 500, detail := none } with
          listCenters := fun _ => Except.ok [Center.sample] }
        (AdminState.init { token := some "tok", requests := [] })).2.centers = [Center.sample] ∧
    (AdminState.init { token := some "tok", requests := [] }).centers = [] ∧
    (AdminState.load
        { Server.rejecting { status := some 500, detail := none } with
          listCenters := fun _ => Except.ok [Center.sample] }
        (AdminState.init { token := some "tok", requests := [] })).2.analytics =
      (AdminState.init { token := some "tok", requests := [] }).analytics := by
  simp [AdminState_load_effect, Server.rejecting, AdminState.init]

/-- C14 (amended): when a read of `load` fails with `e`, `load` returns
normally with `loading = false`, raises one error notification (the detail of
`e` or `Failed to load data`), and keeps the old analytics; the centers are the
old ones if `listCenters` is the read that failed and the fetched ones if
`listCenters` succeeded and `analyticsOverview` failed. -/
theorem AdminState_load_failure (srv : Server) (s : AdminState) (e : ApiError)
    (h : srv.listCenters (outgoing s.net.token "get" "/recyclers/centers" []) = Except.error e ∨
      (∃ c, srv.listCenters (outgoing s.net.token "get" "/recyclers/centers" []) = Except.ok c ∧
        srv.analyticsOverview (outgoing s.net.token "get" "/analytics/overview" []) =
          Except.error e)) :
    (AdminState.load srv s).1 = Except.ok () ∧
    (AdminState.load srv s).2.loading = false ∧
    (AdminState.load srv s).2.ui.raised =
      s.ui.raised ++ [{ message := detailOr e "Failed to load data", type := "error" }] ∧
    (AdminState.load srv s).2.analytics = s.analytics ∧
    (AdminState.load srv s).2.centers =
      (match srv.listCenters (outgoing s.net.token "get" "/recyclers/centers" []) with
        | Except.ok c => c
        | Except.error _ => s.centers) := by
  rw [AdminState_load_effect]
  rcases h with h | ⟨c, h1, h2⟩
  · simp [h, showToast]
  · simp [h1, h2, showToast]

/-- Witness for C14 (amended): the centers arrive and the analytics request is
rejected. -/
theorem AdminState_load_failure_witness :
    (AdminState.load
        { Server.rejecting { status := some 500, detail := none } with
          listCenters := fun _ => Except.ok [Center.sample] }
        (AdminState.init { token := some "tok", requests := [] })).2.ui.raised =
      [{ message := "Failed to load data", type := "error" }] ∧
    (AdminState.load
        { Server.rejecting { status := some 500, detail := none } with
          listCenters := fun _ => Except.ok [Center.sample] }
        (AdminState.init { token := some "tok", requests := [] })).2.analytics = none := by
  have h := AdminState_load_failure
    { Server.rejecting { status := some 500, detail := none } with
      listCenters := fun _ => Except.ok [Center.sample] }
    (AdminState.init { token := some "tok", requests := [] })
    { status := some 500, detail := none }
    (Or.inr ⟨[Center.sample], rfl, rfl⟩)
  exact ⟨h.2.2.1, h.2.2.2.1⟩

/-- C15 (as stated) fails: `getMe` and `listCenters` succeed and
`recyclerAssigned` is rejected; after `loadDashboard` the three center lists
are the fetched ones, not the ones held before, while the items are the old
ones. -/
theorem RecyclerState_loadDashboard_not_atomic :
    (RecyclerState.loadDashboard
        { Server.accepting with
          recyclerAssigned := fun _ => Except.error { status := some 403, detail := none } }
        (RecyclerState.init { token := some "tok", requests := [] })).2.centers =
      [Center.sample] ∧
    (RecyclerState.loadDashboard
        { Server.accepting with
          recyclerAssigned := fun _ => Except.error { status := some 403, detail := none } }
        (RecyclerState.init { token := some "tok", requests := [] })).2.availableCenters =
      [Center.sample] ∧
    (RecyclerState.init { token := some "tok", requests := [] }).centers = [] ∧
    (RecyclerState.init { token := some "tok", requests := [] }).availableCenters = [] ∧
    (RecyclerState.loadDashboard
        { Server.accepting with
          recyclerAssigned := fun _ => Except.error { status := some 403, detail := none } }
        (RecyclerState.init { token := some "tok", requests := [] })).2.items =
      (RecyclerState.init { token := some "tok", requests := [] }).items := by
  simp [RecyclerState_loadDashboard_effect, Server.accepting, RecyclerState.init, Center.sample,
    noManager, managedBy]

/-- C15 (amended): when a read of `loadDashboard` fails with `e`,
`loadDashboard` returns normally with `loading = false`, raises one error
notification (the detail of `e` or `Failed to load dashboard`), and keeps the
old items; the three center lists are the old ones if `getMe` or `listCenters`
is the read that failed, and are computed from the fetched centers if both
succeeded and `recyclerAssigned` failed. -/
theorem RecyclerState_loadDashboard_failure (srv : Server) (s : RecyclerState) (e : ApiError)
    (h : srv.getMe (outgoing s.net.token "get" "/users/me" []) = Except.error e ∨
      (∃ me, srv.getMe (outgoing s.net.token "get" "/users/me" []) = Except.ok me ∧
        srv.listCenters (outgoing s.net.token "get" "/recyclers/centers" []) = Except.error e) ∨
      (∃ me c, srv.getMe (outgoing s.net.token "get" "/users/me" []) = Except.ok me ∧
        srv.listCenters (outgoing s.net.token "get" "/recyclers/centers" []) = Except.ok c ∧
        srv.recyclerAssigned (outgoing s.net.token "get" "/recyclers/assigned" []) =
          Except.error e)) :
    (RecyclerState.loadDashboard srv s).1 = Except.ok () ∧
    (RecyclerState.loadDashboard srv s).2.loading = false ∧
    (RecyclerState.loadDashboard srv s).2.ui.raised =
      s.ui.raised ++ [{ message := detailOr e "Failed to load dashboard", type := "error" }] ∧
    (RecyclerState.loadDashboard srv s).2.items = s.items ∧
    ((RecyclerState.loadDashboard srv s).2.centers,
      (RecyclerState.loadDashboard srv s).2.claimedCenters,
      (RecyclerState.loadDashboard srv s).2.availableCenters) =
      (match srv.getMe (outgoing s.net.token "get" "/users/me" []),
          srv.listCenters (outgoing s.net.token "get" "/recyclers/centers" []) with
        | Except.ok me, Except.ok c =>
          (c, c.filter (fun x => managedBy me x),
            c.filter (fun x => x.approved && (noManager x || managedBy me x)))
        | _, _ => (s.centers, s.claimedCenters, s.availableCenters)) := by
  rw [RecyclerState_loadDashboard_effect]
  rcases h with h | ⟨me, h0, h1⟩ | ⟨me, c, h0, h1, h2⟩
  · simp [h, showToast]
  · simp [h0, h1, showToast]
  · simp [h0, h1, h2, showToast]

/-- Witness for C15 (amended): identity and centers arrive and the assignment
request is rejected with a detail. -/
theorem RecyclerState_loadDashboard_failure_witness :
    (RecyclerState.loadDashboard
        { Server.accepting with
          recyclerAssigned := fun _ =>
            Except.error { status := some 403, detail := some "No center claimed" } }
        (RecyclerState.init { token := some "tok", requests := [] })).2.ui.raised =
      [{ message := "No center claimed", type := "error" }] ∧
    (RecyclerState.loadDashboard
        { Server.accepting with
          recyclerAssigned := fun _ =>
            Except.error { status := some 403, detail := some "No center claimed" } }
        (RecyclerState.init { token := some "tok", requests := [] })).2.items = [] := by
  have h := RecyclerState_loadDashboard_failure
    { Server.accepting with
      recyclerAssigned := fun _ =>
        Except.error { status := some 403, detail := some "No center claimed" } }
    (RecyclerState.init { token := some "tok", requests := [] })
    { status := some 403, detail := some "No center claimed" }
    (Or.inr (Or.inr ⟨_, _, rfl, rfl, rfl⟩))
  exact ⟨h.2.2.1, h.2.2.2.1⟩

/-- C16 (as stated) fails: on mount `listCenters` succeeds and `userHistory`
is rejected; `loadData` throws (nothing catches it), no notification is
raised, and the centers of the snapshot are the fetched ones, not the ones
held before. -/
theorem UserState_loadData_failure_unhandled :
    (UserState.loadData
        { Server.rejecting { status := some 500, detail := some "boom" } with
          listCenters := fun _ => Except.ok [Center.sample] }
        (UserState.init { token := some "tok", requests := [] })).1 =
      Except.error { status := some 500, detail := some "boom" } ∧
    (UserState.loadData
        { Server.rejecting { status := some 500, detail := some "boom" } with
          listCenters := fun _ => Except.ok [Center.sample] }
        (UserState.init { token := some "tok", requests := [] })).2.ui.raised = [] ∧
    (UserState.loadData
        { Server.rejecting { status := some 500, detail := some "boom" } with
          listCenters := fun _ => Except.ok [Center.sample] }
        (UserState.init { token := some "tok", requests := [] })).2.centers = [Center.sample] ∧
    (UserState.init { token := some "tok", requests := [] }).centers = [] := by
  simp [UserState_loadData_effect, Server.rejecting, UserState.init, Notifier.empty]

/-- C16 (amended): when a read of `loadData` fails, the reads after it are not
sent, the fields whose reads succeeded before it hold the fetched values and
the other fields hold their old values; the statistics are always the old
ones, and the whole snapshot is the old one when `listCenters` is the read
that failed. -/
theorem UserState_loadData_failure (srv : Server) (s : UserState) (e : ApiError)
    (h : srv.listCenters (outgoing s.net.token "get" "/recyclers/centers" []) = Except.error e ∨
      (∃ c, srv.listCenters (outgoing s.net.token "get" "/recyclers/centers" []) = Except.ok c ∧
        srv.userHistory (outgoing s.net.token "get" "/reports/history" []) = Except.error e) ∨
      (∃ c r, srv.listCenters (outgoing s.net.token "get" "/recyclers/centers" []) = Except.ok c ∧
        srv.userHistory (outgoing s.net.token "get" "/reports/history" []) = Except.ok r ∧
        srv.getUserStats (outgoing s.net.token "get" "/users/stats" []) = Except.error e)) :
    (UserState.loadData srv s).2.stats = s.stats ∧
    (UserState.loadData srv s).2.centers =
      (match srv.listCenters (outgoing s.net.token "get" "/recyclers/centers" []) with
        | Except.ok c => c
        | Except.error _ => s.centers) ∧
    (UserState.loadData srv s).2.history =
      (match srv.listCenters (outgoing s.net.token "get" "/recyclers/centers" []),
          srv.userHistory (outgoing s.net.token "get" "/reports/history" []) with
        | Except.ok _, Except.ok r => r
        | _, _ => s.history) ∧
    (UserState.loadData srv s).2.net.requests =
      s.net.requests ++
        (match srv.listCenters (outgoing s.net.token "get" "/recyclers/centers" []),
            srv.userHistory (outgoing s.net.token "get" "/reports/history" []) with
          | Except.error _, _ => [outgoing s.net.token "get" "/recyclers/centers" []]
          | Except.ok _, Except.error _ =>
            [outgoing s.net.token "get" "/recyclers/centers" [],
              outgoing s.net.token "get" "/reports/history" []]
          | Except.ok _, Except.ok _ =>
            [outgoing s.net.token "get" "/recyclers/centers" [],
              outgoing s.net.token "get" "/reports/history" [],
              outgoing s.net.token "get" "/users/stats" []]) := by
  rw [UserState_loadData_effect]
  rcases h with h | ⟨c, h0, h1⟩ | ⟨c, r, h0, h1, h2⟩
  · simp [h]
  · simp [h0, h1]
  · simp [h0, h1, h2]

/-- Witness for C16 (amended): `listCenters` itself is rejected, and the
snapshot is the old one. -/
theorem UserState_loadData_failure_witness :
    (UserState.loadData (Server.rejecting { status := some 401, detail := none })
        (UserState.init { token := none, requests := [] })).2.stats = none ∧
    (UserState.loadData (Server.rejecting { status := some 401, detail := none })
        (UserState.init { token := none, requests := [] })).2.centers = [] ∧
    (UserState.loadData (Server.rejecting { status := some 401, detail := none })
        (UserState.init { token := none, requests := [] })).2.history = [] := by
  have h := UserState_loadData_failure (Server.rejecting { status := some 401, detail := none })
    (UserState.init { token := none, requests := [] }) { status := some 401, detail := none }
    (Or.inl rfl)
  exact ⟨h.1, h.2.1, h.2.2.1⟩

/-! ## Synchronization protocol: mutations -/

/-- Effect of `AdminDashboard.approve` in full, by the outcome of the write. -/
theorem AdminState_approve_effect (srv : Server) (id : Nat) (s : AdminState) :
    AdminState.approve srv id s =
      (match srv.adminApproveCenter
          (outgoing s.net.token "post" ("/admin/centers/" ++ toString id ++ "/approve") []) with
        | Except.ok _ =>
          AdminState.load srv
            { s with
              net := { s.net with requests := s.net.requests ++
                [outgoing s.net.token "post" ("/admin/centers/" ++ toString id ++ "/approve") []] },
              ui := showToast "Center approved successfully!" (some "success") s.ui }
        | Except.error e =>
          (Except.ok (),
            { s with
              net := { s.net with requests := s.net.requests ++
                [outgoing s.net.token "post" ("/admin/centers/" ++ toString id ++ "/approve") []] },
              ui := showToast (detailOr e "Failed to approve center") (some "error") s.ui })) := by
  simp only [AdminState.approve, AdminState.onNet, AdminState.showToast, Act.bind, Act.tryCatch,
    Act.modify, Act.lift, adminApproveCenter, apiPost_effect, outgoing]
  cases h : srv.adminApproveCenter (requestInterceptor s.net.token
      (baseConfig "post" ("/admin/centers/" ++ toString id ++ "/approve") [])) with
  | error e => simp
  | ok u => simp [AdminState_load_effect]

/-- Effect of `RecyclerDashboard.update` in full, by the outcome of the write. -/
theorem RecyclerState_update_effect (srv : Server) (id : Nat) (status : String)
    (s : RecyclerState) :
    RecyclerState.update srv id status s =
      (match srv.recyclerUpdateStatus
          (outgoing s.net.token "post" ("/recyclers/assigned/" ++ toString id ++ "/status")
            [("status", status)]) with
        | Except.ok _ =>
          RecyclerState.loadDashboard srv
            { s with
              net := { s.net with requests := s.net.requests ++
                [outgoing s.net.token "post" ("/recyclers/assigned/" ++ toString id ++ "/status")
                  [("status", status)]] },
              ui := showToast ("Status updated to " ++ status) (some "success") s.ui }
        | Except.error e =>
          (Except.ok (),
            { s with
              net := { s.net with requests := s.net.requests ++
                [outgoing s.net.token "post" ("/recyclers/assigned/" ++ toString id ++ "/status")
                  [("status", status)]] },
              ui := showToast (detailOr e "Failed to update status") (some "error") s.ui })) := by
  simp only [RecyclerState.update, RecyclerState.onNet, RecyclerState.showToast, Act.bind,
    Act.tryCatch, Act.modify, Act.lift, recyclerUpdateStatus, apiPost_effect, outgoing]
  cases h : srv.recyclerUpdateStatus (requestInterceptor s.net.token
      (baseConfig "post" ("/recyclers/assigned/" ++ toString id ++ "/status")
        [("status", status)])) with
  | error e => simp
  | ok u => simp [RecyclerState_loadDashboard_effect]

/-- Effect of `RecyclerDashboard.handleClaim` in full, by the outcome of the
write. -/
theorem RecyclerState_handleClaim_effect (srv : Server) (centerId : Nat) (s : RecyclerState) :
    RecyclerState.handleClaim srv centerId s =
      (match srv.claimCenter
          (outgoing s.net.token "post" ("/recyclers/centers/" ++ toString centerId ++ "/claim")
            []) with
        | Except.ok _ =>
          RecyclerState.loadDashboard srv
            { s with
              net := { s.net with requests := s.net.requests ++
                [outgoing s.net.token "post"
                  ("/recyclers/centers/" ++ toString centerId ++ "/claim") []] },
              ui := showToast "Center claimed successfully!" (some "success") s.ui }
        | Except.error e =>
          (Except.ok (),
            { s with
              net := { s.net with requests := s.net.requests ++
                [outgoing s.net.token "post"
                  ("/recyclers/centers/" ++ toString centerId ++ "/claim") []] },
              ui := showToast (detailOr e "Unable to claim center") (some "error") s.ui })) := by
  simp only [RecyclerState.handleClaim, RecyclerState.onNet, RecyclerState.showToast, Act.bind,
    Act.tryCatch, Act.modify, Act.lift, claimCenter, apiPost_effect, outgoing]
  cases h : srv.claimCenter (requestInterceptor s.net.token
      (baseConfig "post" ("/recyclers/centers/" ++ toString centerId ++ "/claim") [])) with
  | error e => simp
  | ok u => simp [RecyclerState_loadDashboard_effect]

/-- A request as it leaves the client has the method it was made with. -/
theorem outgoing_method (token : Option String) (method url : String)
    (data : List (String × String)) : (outgoing token method url data).method = method := by
  simp [outgoing, (requestInterceptor_fields token _).1, baseConfig]

/-- Every request that `AdminDashboard.load` sends is a `get`, and it keeps
the requests sent before. -/
theorem AdminState_load_requests (srv : Server) (s : AdminState) :
    ∃ reads, (AdminState.load srv s).2.net.requests = s.net.requests ++ reads ∧
      ∀ r ∈ reads, r.method = "get" := by
  rw [AdminState_load_effect]
  cases srv.listCenters (outgoing s.net.token "get" "/recyclers/centers" []) with
  | error e => exact ⟨_, rfl, by simp [outgoing_method]⟩
  | ok c =>
    cases srv.analyticsOverview (outgoing s.net.token "get" "/analytics/overview" []) with
    | error e => exact ⟨_, rfl, by simp [outgoing_method]⟩
    | ok a => exact ⟨_, rfl, by simp [outgoing_method]⟩

/-- Every request that `RecyclerDashboard.loadDashboard` sends is a `get`, and
it keeps the requests sent before. -/
theorem RecyclerState_loadDashboard_requests (srv : Server) (s : RecyclerState) :
    ∃ reads, (RecyclerState.loadDashboard srv s).2.net.requests = s.net.requests ++ reads ∧
      ∀ r ∈ reads, r.method = "get" := by
  rw [RecyclerState_loadDashboard_effect]
  cases srv.getMe (outgoing s.net.token "get" "/users/me" []) with
  | error e => exact ⟨_, rfl, by simp [outgoing_method]⟩
  | ok me =>
    cases srv.listCenters (outgoing s.net.token "get" "/recyclers/centers" []) with
    | error e => exact ⟨_, rfl, by simp [outgoing_method]⟩
    | ok c =>
      cases srv.recyclerAssigned (outgoing s.net.token "get" "/recyclers/assigned" []) with
      | error e => exact ⟨_, rfl, by simp [outgoing_method]⟩
      | ok a => exact ⟨_, rfl, by simp [outgoing_method]⟩

/-- C17: when its write succeeds, each of `approve`, `update` and `handleClaim`
returns normally after one run of the dashboard's load from the state in which
the write has been sent and the success notification raised. The requests the
handler adds to the log are the one `post` first and then the reads of the
load in its order, up to and including the first read that fails; the
success notification is raised before any notification of the load; and the
snapshot afterwards holds what the reads fetched. -/
theorem mutation_success_then_reload (srvA srvU srvC : Server) (sa : AdminState)
    (su sc : RecyclerState) (id reportId centerId : Nat) (status : String)
    (hA : srvA.adminApproveCenter
      (outgoing sa.net.token "post" ("/admin/centers/" ++ toString id ++ "/approve") []) =
        Except.ok ())
    (hU : srvU.recyclerUpdateStatus
      (outgoing su.net.token "post" ("/recyclers/assigned/" ++ toString reportId ++ "/status")
        [("status", status)]) = Except.ok ())
    (hC : srvC.claimCenter
      (outgoing sc.net.token "post" ("/recyclers/centers/" ++ toString centerId ++ "/claim") []) =
        Except.ok ()) :
    (AdminState.approve srvA id sa =
      AdminState.load srvA
        { sa with
          net := { sa.net with requests := sa.net.requests ++
            [outgoing sa.net.token "post" ("/admin/centers/" ++ toString id ++ "/approve") []] },
          ui := showToast "Center approved successfully!" (some "success") sa.ui } ∧
      (AdminState.approve srvA id sa).1 = Except.ok () ∧
      (AdminState.approve srvA id sa).2.net.requests =
        sa.net.requests ++
          (outgoing sa.net.token "post" ("/admin/centers/" ++ toString id ++ "/approve") [] ::
            outgoing sa.net.token "get" "/recyclers/centers" [] ::
              (match srvA.listCenters (outgoing sa.net.token "get" "/recyclers/centers" []) with
                | Except.ok _ => [outgoing sa.net.token "get" "/analytics/overview" []]
                | Except.error _ => [])) ∧
      (AdminState.approve srvA id sa).2.ui.raised =
        sa.ui.raised ++
          ({ message := "Center approved successfully!", type := "success" } ::
            (match srvA.listCenters (outgoing sa.net.token "get" "/recyclers/centers" []),
                srvA.analyticsOverview (outgoing sa.net.token "get" "/analytics/overview" []) with
              | Except.error e, _ =>
                [{ message := detailOr e "Failed to load data", type := "error" }]
              | Except.ok _, Except.error e =>
                [{ message := detailOr e "Failed to load data", type := "error" }]
              | Except.ok _, Except.ok _ => [])) ∧
      (AdminState.approve srvA id sa).2.centers =
        (match srvA.listCenters (outgoing sa.net.token "get" "/recyclers/centers" []) with
          | Except.ok c => c
          | Except.error _ => sa.centers) ∧
      (AdminState.approve srvA id sa).2.analytics =
        (match srvA.listCenters (outgoing sa.net.token "get" "/recyclers/centers" []),
            srvA.analyticsOverview (outgoing sa.net.token "get" "/analytics/overview" []) with
          | Except.ok _, Except.ok a => some a
          | _, _ => sa.analytics)) ∧
    (RecyclerState.update srvU reportId status su =
      RecyclerState.loadDashboard srvU
        { su with
          net := { su.net with requests := su.net.requests ++
            [outgoing su.net.token "post"
              ("/recyclers/assigned/" ++ toString reportId ++ "/status") [("status", status)]] },
          ui := showToast ("Status updated to " ++ status) (some "success") su.ui } ∧
      (RecyclerState.update srvU reportId status su).1 = Except.ok () ∧
      (RecyclerState.update srvU reportId status su).2.net.requests =
        su.net.requests ++
          (outgoing su.net.token "post"
              ("/recyclers/assigned/" ++ toString reportId ++ "/status") [("status", status)] ::
            outgoing su.net.token "get" "/users/me" [] ::
              (match srvU.getMe (outgoing su.net.token "get" "/users/me" []),
                  srvU.listCenters (outgoing su.net.token "get" "/recyclers/centers" []) with
                | Except.error _, _ => []
                | Except.ok _, Except.error _ =>
                  [outgoing su.net.token "get" "/recyclers/centers" []]
                | Except.ok _, Except.ok _ =>
                  [outgoing su.net.token "get" "/recyclers/centers" [],
                    outgoing su.net.token "get" "/recyclers/assigned" []])) ∧
      (su.ui.raised ++
          [({ message := "Status updated to " ++ status, type := "success" } : ToastMsg)]) <+:
        (RecyclerState.update srvU reportId status su).2.ui.raised ∧
      (RecyclerState.update srvU reportId status su).2.items =
        (match srvU.getMe (outgoing su.net.token "get" "/users/me" []),
            srvU.listCenters (outgoing su.net.token "get" "/recyclers/centers" []),
            srvU.recyclerAssigned (outgoing su.net.token "get" "/recyclers/assigned" []) with
          | Except.ok _, Except.ok _, Except.ok r => r
          | _, _, _ => su.items)) ∧
    (RecyclerState.handleClaim srvC centerId sc =
      RecyclerState.loadDashboard srvC
        { sc with
          net := { sc.net with requests := sc.net.requests ++
            [outgoing sc.net.token "post"
              ("/recyclers/centers/" ++ toString centerId ++ "/claim") []] },
          ui := showToast "Center claimed successfully!" (some "success") sc.ui } ∧
      (RecyclerState.handleClaim srvC centerId sc).1 = Except.ok () ∧
      (RecyclerState.handleClaim srvC centerId sc).2.net.requests =
        sc.net.requests ++
          (outgoing sc.net.token "post"
              ("/recyclers/centers/" ++ toString centerId ++ "/claim") [] ::
            outgoing sc.net.token "get" "/users/me" [] ::
              (match srvC.getMe (outgoing sc.net.token "get" "/users/me" []),
                  srvC.listCenters (outgoing sc.net.token "get" "/recyclers/centers" []) with
                | Except.error _, _ => []
                | Except.ok _, Except.error _ =>
                  [outgoing sc.net.token "get" "/recyclers/centers" []]
                | Except.ok _, Except.ok _ =>
                  [outgoing sc.net.token "get" "/recyclers/centers" [],
                    outgoing sc.net.token "get" "/recyclers/assigned" []])) ∧
      (sc.ui.raised ++
          [({ message := "Center claimed successfully!", type := "success" } : ToastMsg)]) <+:
        (RecyclerState.handleClaim srvC centerId sc).2.ui.raised ∧
      (RecyclerState.handleClaim srvC centerId sc).2.items =
        (match srvC.getMe (outgoing sc.net.token "get" "/users/me" []),
            srvC.listCenters (outgoing sc.net.token "get" "/recyclers/centers" []),
            srvC.recyclerAssigned (outgoing sc.net.token "get" "/recyclers/assigned" []) with
          | Except.ok _, Except.ok _, Except.ok r => r
          | _, _, _ => sc.items)) := by
  have eA := AdminState_approve_effect srvA id sa
  have eU := RecyclerState_update_effect srvU reportId status su
  have eC := RecyclerState_handleClaim_effect srvC centerId sc
  rw [hA] at eA
  rw [hU] at eU
  rw [hC] at eC
  simp only at eA eU eC
  refine ⟨⟨eA, ?_⟩, ⟨eU, ?_⟩, ⟨eC, ?_⟩⟩
  · rw [eA, AdminState_load_effect]
    dsimp only
    cases srvA.listCenters (outgoing sa.net.token "get" "/recyclers/centers" []) <;>
      cases srvA.analyticsOverview (outgoing sa.net.token "get" "/analytics/overview" []) <;>
        simp [showToast]
  · rw [eU, RecyclerState_loadDashboard_effect]
    dsimp only
    cases srvU.getMe (outgoing su.net.token "get" "/users/me" []) <;>
      cases srvU.listCenters (outgoing su.net.token "get" "/recyclers/centers" []) <;>
        cases srvU.recyclerAssigned (outgoing su.net.token "get" "/recyclers/assigned" []) <;>
          simp [showToast]
  · rw [eC, RecyclerState_loadDashboard_effect]
    dsimp only
    cases srvC.getMe (outgoing sc.net.token "get" "/users/me" []) <;>
      cases srvC.listCenters (outgoing sc.net.token "get" "/recyclers/centers" []) <;>
        cases srvC.recyclerAssigned (outgoing sc.net.token "get" "/recyclers/assigned" []) <;>
          simp [showToast]

/-- Witness for C17: a server that accepts every request. After `approve` the
log holds the write and then the two reads of `load`, and the fetched centers
are shown; after `update` and after `handleClaim` the log holds the write and
then the three reads of `loadDashboard`, and the fetched items are shown. -/
theorem mutation_success_then_reload_witness :
    ((AdminState.approve Server.accepting 4
        (AdminState.init { token := some "tok", requests := [] })).2.net.requests.map
          (fun r => (r.method, r.url))) =
      [("post", "/admin/centers/4/approve"), ("get", "/recyclers/centers"),
        ("get", "/analytics/overview")] ∧
    (AdminState.approve Server.accepting 4
        (AdminState.init { token := some "tok", requests := [] })).2.centers = [Center.sample] ∧
    (AdminState.approve Server.accepting 4
        (AdminState.init { token := some "tok", requests := [] })).2.ui.raised =
      [{ message := "Center approved successfully!", type := "success" }] ∧
    ((RecyclerState.update Server.accepting 11 "received"
        (RecyclerState.init { token := some "tok", requests := [] })).2.net.requests.map
          (fun r => (r.method, r.url))) =
      [("post", "/recyclers/assigned/11/status"), ("get", "/users/me"),
        ("get", "/recyclers/centers"), ("get", "/recyclers/assigned")] ∧
    (RecyclerState.update Server.accepting 11 "received"
        (RecyclerState.init { token := some "tok", requests := [] })).2.items = [Report.sample] ∧
    ((RecyclerState.handleClaim Server.accepting 4
        (RecyclerState.init { token := some "tok", requests := [] })).2.net.requests.map
          (fun r => (r.method, r.url))) =
      [("post", "/recyclers/centers/4/claim"), ("get", "/users/me"),
        ("get", "/recyclers/centers"), ("get", "/recyclers/assigned")] ∧
    (RecyclerState.handleClaim Server.accepting 4
        (RecyclerState.init { token := some "tok", requests := [] })).2.items =
      [Report.sample] := by
  have h := mutation_success_then_reload Server.accepting Server.accepting Server.accepting
    (AdminState.init { token := some "tok", requests := [] })
    (RecyclerState.init { token := some "tok", requests := [] })
    (RecyclerState.init { token := some "tok", requests := [] }) 4 11 4 "received" rfl rfl rfl
  obtain ⟨⟨_, _, hAr, hAt, hAc, _⟩, ⟨_, _, hUr, _, hUi⟩, ⟨_, _, hCr, _, hCi⟩⟩ := h
  rw [hAr, hAt, hAc, hUr, hUi, hCr, hCi]
  simp [Server.accepting, AdminState.init, RecyclerState.init, Notifier.empty, outgoing,
    requestInterceptor, baseConfig]
  decide

/-- C18: when its write fails with an error, each of `approve`, `update` and
`handleClaim` returns normally from a state that differs from the one before
only in the log, which has the write request added and no other, and in the
notifications, where one error notification is raised; its message is the
detail of the error when that is a non-empty string and the handler's fallback
otherwise. -/
theorem mutation_failure_no_reload (srv : Server) (sa : AdminState) (sr : RecyclerState)
    (id reportId centerId : Nat) (status : String) (eA eU eC : ApiError)
    (hA : srv.adminApproveCenter
      (outgoing sa.net.token "post" ("/admin/centers/" ++ toString id ++ "/approve") []) =
        Except.error eA)
    (hU : srv.recyclerUpdateStatus
      (outgoing sr.net.token "post" ("/recyclers/assigned/" ++ toString reportId ++ "/status")
        [("status", status)]) = Except.error eU)
    (hC : srv.claimCenter
      (outgoing sr.net.token "post" ("/recyclers/centers/" ++ toString centerId ++ "/claim") []) =
        Except.error eC) :
    AdminState.approve srv id sa =
      (Except.ok (),
        { sa with
          net := { sa.net with requests := sa.net.requests ++
            [outgoing sa.net.token "post" ("/admin/centers/" ++ toString id ++ "/approve") []] },
          ui := { sa.ui with
            toast := some { message := detailOr eA "Failed to approve center", type := "error" },
            raised := sa.ui.raised ++
              [{ message := detailOr eA "Failed to approve center", type := "error" }],
            timeouts := sa.ui.timeouts ++ [sa.ui.now + 3000] } }) ∧
    RecyclerState.update srv reportId status sr =
      (Except.ok (),
        { sr with
          net := { sr.net with requests := sr.net.requests ++
            [outgoing sr.net.token "post"
              ("/recyclers/assigned/" ++ toString reportId ++ "/status") [("status", status)]] },
          ui := { sr.ui with
            toast := some { message := detailOr eU "Failed to update status", type := "error" },
            raised := sr.ui.raised ++
              [{ message := detailOr eU "Failed to update status", type := "error" }],
            timeouts := sr.ui.timeouts ++ [sr.ui.now + 3000] } }) ∧
    RecyclerState.handleClaim srv centerId sr =
      (Except.ok (),
        { sr with
          net := { sr.net with requests := sr.net.requests ++
            [outgoing sr.net.token "post"
              ("/recyclers/centers/" ++ toString centerId ++ "/claim") []] },
          ui := { sr.ui with
            toast := some { message := detailOr eC "Unable to claim center", type := "error" },
            raised := sr.ui.raised ++
              [{ message := detailOr eC "Unable to claim center", type := "error" }],
            timeouts := sr.ui.timeouts ++ [sr.ui.now + 3000] } }) ∧
    (∀ (st : Option Nat) (d fallback : String), d ≠ "" →
      detailOr { status := st, detail := some d } fallback = d) ∧
    (∀ (st : Option Nat) (fallback : String),
      detailOr { status := st, detail := none } fallback = fallback ∧
      detailOr { status := st, detail := some "" } fallback = fallback) := by
  have kA := AdminState_approve_effect srv id sa
  have kU := RecyclerState_update_effect srv reportId status sr
  have kC := RecyclerState_handleClaim_effect srv centerId sr
  rw [hA] at kA
  rw [hU] at kU
  rw [hC] at kC
  refine ⟨kA, kU, kC, ?_, ?_⟩
  · intro st d fallback hd
    simp [detailOr, hd]
  · intro st fallback
    simp [detailOr]

/-- Witness for C18: the server rejects every write with the detail
`Item not assigned to your center`; `update` shows that detail and leaves the
items alone. -/
theorem mutation_failure_no_reload_witness :
    (RecyclerState.update
        (Server.rejecting { status := some 403, detail := some "Item not assigned to your center" })
        11 "received"
        { RecyclerState.init { token := some "tok", requests := [] } with
          items := [Report.sample] }).2.ui.raised =
      [{ message := "Item not assigned to your center", type := "error" }] ∧
    (RecyclerState.update
        (Server.rejecting { status := some 403, detail := some "Item not assigned to your center" })
        11 "received"
        { RecyclerState.init { token := some "tok", requests := [] } with
          items := [Report.sample] }).2.items = [Report.sample] ∧
    ((RecyclerState.update
        (Server.rejecting { status := some 403, detail := some "Item not assigned to your center" })
        11 "received"
        { RecyclerState.init { token := some "tok", requests := [] } with
          items := [Report.sample] }).2.net.requests.map (fun r => (r.method, r.url))) =
      [("post", "/recyclers/assigned/11/status")] := by
  have h := mutation_failure_no_reload
    (Server.rejecting { status := some 403, detail := some "Item not assigned to your center" })
    (AdminState.init { token := some "tok", requests := [] })
    { RecyclerState.init { token := some "tok", requests := [] } with items := [Report.sample] }
    4 11 4 "received"
    { status := some 403, detail := some "Item not assigned to your center" }
    { status := some 403, detail := some "Item not assigned to your center" }
    { status := some 403, detail := some "Item not assigned to your center" } rfl rfl rfl
  rw [h.2.1]
  simp [RecyclerState.init, Notifier.empty, detailOr, outgoing, requestInterceptor, baseConfig]
  decide

/-! ## Client-side validation -/

/-- C19: with no file selected, `UserDashboard.submit` returns normally and
changes nothing but the notifications, where it raises the error notification
`Please select an image`: no request is sent, and the snapshot, the selected
center and the loading flag are as before. -/
theorem UserState_submit_no_file (srv : Server) (percent : Rat → String) (s : UserState)
    (h : s.file = none) :
    UserState.submit srv percent s =
      (Except.ok (),
        { s with ui := showToast "Please select an image" (some "error") s.ui }) ∧
    (UserState.submit srv percent s).2.ui.raised =
      s.ui.raised ++ [{ message := "Please select an image", type := "error" }] ∧
    (UserState.submit srv percent s).2.net = s.net ∧
    (UserState.submit srv percent s).2.centers = s.centers ∧
    (UserState.submit srv percent s).2.history = s.history ∧
    (UserState.submit srv percent s).2.stats = s.stats ∧
    (UserState.submit srv percent s).2.selectedCenter = s.selectedCenter ∧
    (UserState.submit srv percent s).2.loading = s.loading := by
  have key : UserState.submit srv percent s =
      (Except.ok (),
        { s with ui := showToast "Please select an image" (some "error") s.ui }) := by
    simp [UserState.submit, h, UserState.showToast, Act.modify]
  rw [key]
  simp [showToast]

/-- Witness for C19: a mounted dashboard with a center selected and no file,
against a server that would accept the upload. -/
theorem UserState_submit_no_file_witness :
    (UserState.submit Server.accepting (fun _ => "100")
        { UserState.init { token := some "tok", requests := [] } with
          selectedCenter := some Center.sample }).2.ui.raised =
      [{ message := "Please select an image", type := "error" }] ∧
    (UserState.submit Server.accepting (fun _ => "100")
        { UserState.init { token := some "tok", requests := [] } with
          selectedCenter := some Center.sample }).2.net =
      { token := some "tok", requests := [] } :=
  ⟨(UserState_submit_no_file Server.accepting (fun _ => "100")
      { UserState.init { token := some "tok", requests := [] } with
        selectedCenter := some Center.sample } rfl).2.1,
    (UserState_submit_no_file Server.accepting (fun _ => "100")
      { UserState.init { token := some "tok", requests := [] } with
        selectedCenter := some Center.sample } rfl).2.2.1⟩

/-- C20: `Register.submit`, with `onRegister` the `loadMe` of `App`. For role
`recycler` with the center name, the latitude or the longitude empty it
returns normally, sends nothing, sets the inline error, raises one error
notification and leaves `loading` alone. For another role, or with the three
fields filled, the first request it sends is the `post` to `/auth/register`
with the payload. -/
theorem RegisterState_submit_validation (srv : Server) (number : String → String)
    (sb sp : RegisterState)
    (hb : sb.role = "recycler" ∧ (sb.centerName = "" ∨ sb.latitude = "" ∨ sb.longitude = ""))
    (hp : sp.role ≠ "recycler" ∨ (sp.centerName ≠ "" ∧ sp.latitude ≠ "" ∧ sp.longitude ≠ "")) :
    RegisterState.submit srv number (loadMe srv.getMe) sb =
      (Except.ok (),
        { sb with
          error := "Please provide center name and coordinates for recycler registration",
          ui := showToast "Please fill all recycler center details" (some "error") sb.ui }) ∧
    (RegisterState.submit srv number (loadMe srv.getMe) sb).2.app.net.requests =
      sb.app.net.requests ∧
    (RegisterState.submit srv number (loadMe srv.getMe) sb).2.loading = sb.loading ∧
    (RegisterState.submit srv number (loadMe srv.getMe) sb).2.ui.raised =
      sb.ui.raised ++ [{ message := "Please fill all recycler center details", type := "error" }] ∧
    (∃ rest, (RegisterState.submit srv number (loadMe srv.getMe) sp).2.app.net.requests =
      sp.app.net.requests ++
        outgoing sp.app.net.token "post" "/auth/register" (RegisterState.payload number sp) ::
          rest) := by
  have key : RegisterState.submit srv number (loadMe srv.getMe) sb =
      (Except.ok (),
        { sb with
          error := "Please provide center name and coordinates for recycler registration",
          ui := showToast "Please fill all recycler center details" (some "error") sb.ui }) := by
    simp [RegisterState.submit, hb, RegisterState.showToast, Act.modify]
  refine ⟨key, by rw [key], by rw [key], by rw [key]; simp [showToast], ?_⟩
  have hn : ¬ (sp.role = "recycler" ∧
      (sp.centerName = "" ∨ sp.latitude = "" ∨ sp.longitude = "")) := by
    rintro ⟨hr, hc⟩
    rcases hp with hp | ⟨h1, h2, h3⟩
    · exact hp hr
    · rcases hc with hc | hc | hc
      · exact h1 hc
      · exact h2 hc
      · exact h3 hc
  have hpay : RegisterState.payload number { sp with error := "" } =
      RegisterState.payload number sp := rfl
  simp only [RegisterState.submit, if_neg hn, RegisterState.onNet, RegisterState.onApp,
    RegisterState.showToast, Act.bind, Act.tryFinally, Act.tryCatch, Act.modify, Act.lift,
    register, login, apiPost_effect, hpay, loadMe_effect]
  cases hR : srv.register (requestInterceptor sp.app.net.token
      (baseConfig "post" "/auth/register" (RegisterState.payload number sp))) with
  | error e => exact ⟨[], by simp [outgoing]⟩
  | ok u =>
    cases hL : srv.login (requestInterceptor sp.app.net.token
        (baseConfig "post" "/auth/login-json"
          [("email", sp.email), ("password", sp.password)])) with
    | error e => exact ⟨_, by simp [hL, outgoing]; rfl⟩
    | ok res => exact ⟨_, by simp [hL, outgoing, getMe_net]; rfl⟩

/-- Witness for C20: a recycler form without latitude is blocked, and a
submitter form is sent, against a server that accepts every request. -/
theorem RegisterState_submit_validation_witness :
    (RegisterState.submit Server.accepting (fun x => x) (loadMe Server.accepting.getMe)
        { RegisterState.init (App.init { token := none, requests := [] } "/register") with
          email := "r@portal", password := "pw", role := "recycler", centerName := "GreenLoop",
          longitude := "78" }).2.app.net.requests = [] ∧
    (RegisterState.submit Server.accepting (fun x => x) (loadMe Server.accepting.getMe)
        { RegisterState.init (App.init { token := none, requests := [] } "/register") with
          email := "r@portal", password := "pw", role := "recycler", centerName := "GreenLoop",
          longitude := "78" }).2.ui.raised =
      [{ message := "Please fill all recycler center details", type := "error" }] ∧
    (∃ rest,
      (RegisterState.submit Server.accepting (fun x => x) (loadMe Server.accepting.getMe)
        { RegisterState.init (App.init { token := none, requests := [] } "/register") with
          email := "u@portal", password := "pw" }).2.app.net.requests =
      [] ++ outgoing none "post" "/auth/register"
        (RegisterState.payload (fun x => x)
          { RegisterState.init (App.init { token := none, requests := [] } "/register") with
            email := "u@portal", password := "pw" }) :: rest) :=
  ⟨(RegisterState_submit_validation Server.accepting (fun x => x)
      { RegisterState.init (App.init { token := none, requests := [] } "/register") with
        email := "r@portal", password := "pw", role := "recycler", centerName := "GreenLoop",
        longitude := "78" }
      { RegisterState.init (App.init { token := none, requests := [] } "/register") with
        email := "u@portal", password := "pw" }
      ⟨rfl, Or.inr (Or.inl rfl)⟩ (Or.inl (by decide))).2.1,
    (RegisterState_submit_validation Server.accepting (fun x => x)
      { RegisterState.init (App.init { token := none, requests := [] } "/register") with
        email := "r@portal", password := "pw", role := "recycler", centerName := "GreenLoop",
        longitude := "78" }
      { RegisterState.init (App.init { token := none, requests := [] } "/register") with
        email := "u@portal", password := "pw" }
      ⟨rfl, Or.inr (Or.inl rfl)⟩ (Or.inl (by decide))).2.2.2.1,
    (RegisterState_submit_validation Server.accepting (fun x => x)
      { RegisterState.init (App.init { token := none, requests := [] } "/register") with
        email := "r@portal", password := "pw", role := "recycler", centerName := "GreenLoop",
        longitude := "78" }
      { RegisterState.init (App.init { token := none, requests := [] } "/register") with
        email := "u@portal", password := "pw" }
      ⟨rfl, Or.inr (Or.inl rfl)⟩ (Or.inl (by decide))).2.2.2.2⟩

/-! ## Derived view filters -/

/-- The empty string occurs in every string. -/
theorem includes_empty (s : String) : includes s "" = true := by
  simp [includes]

/-- Only the empty string occurs in the empty string. -/
theorem includes_in_empty (sub : String) (h : includes "" sub = true) : sub = "" := by
  simp [includes] at h
  cases sub with
  | mk d =>
    simp at h
    simp [h]

/-- The test `item.suggestion && ...` of the filters gives the same filter as
the plain containment test, because a search text found in an empty suggestion
is found in every category. -/
theorem search_guard_redundant (lower : String → String) (hl : lower "" = "") (q : String)
    (r : Report) :
    (includes (lower r.category) (lower q) ||
      (match r.suggestion with
        | some sg => decide (sg ≠ "") && includes (lower sg) (lower q)
        | none => false)) =
    (includes (lower r.category) (lower q) ||
      (match r.suggestion with
        | some sg => includes (lower sg) (lower q)
        | none => false)) := by
  cases hs : r.suggestion with
  | none => rfl
  | some sg =>
    by_cases he : sg = ""
    · subst he
      cases hi : includes (lower "") (lower q) with
      | false => simp [hi]
      | true =>
        rw [hl] at hi
        have hq := includes_in_empty _ hi
        simp [hq, includes_empty]
    · simp [he]

/-- C21: `filteredItems` and `filteredHistory` are the items of the snapshot,
in snapshot order, whose lower-cased category or suggestion contains the
lower-cased search text and whose status is the status filter (or the filter
is `all`); under the filter `assigned` every listed item has status
`assigned`, so none has status `received`; with the empty search text and the
filter `all` the list is the whole snapshot list. -/
theorem filtered_lists_project_snapshot (lower : String → String) (hl : lower "" = "")
    (sr : RecyclerState) (su : UserState) :
    RecyclerState.filteredItems lower sr =
      sr.items.filter (fun r =>
        (includes (lower r.category) (lower sr.searchQuery) ||
          (match r.suggestion with
            | some sg => includes (lower sg) (lower sr.searchQuery)
            | none => false)) &&
        (decide (sr.statusFilter = "all") || decide (r.status = sr.statusFilter))) ∧
    UserState.filteredHistory lower su =
      su.history.filter (fun r =>
        (includes (lower r.category) (lower su.searchQuery) ||
          (match r.suggestion with
            | some sg => includes (lower sg) (lower su.searchQuery)
            | none => false)) &&
        (decide (su.statusFilter = "all") || decide (r.status = su.statusFilter))) ∧
    List.Sublist (RecyclerState.filteredItems lower sr) sr.items ∧
    List.Sublist (UserState.filteredHistory lower su) su.history ∧
    (∀ r ∈ RecyclerState.filteredItems lower { sr with statusFilter := "assigned" },
      r.status = "assigned" ∧ r.status ≠ "received") ∧
    (∀ r ∈ UserState.filteredHistory lower { su with statusFilter := "assigned" },
      r.status = "assigned" ∧ r.status ≠ "received") ∧
    RecyclerState.filteredItems lower { sr with searchQuery := "", statusFilter := "all" } =
      sr.items ∧
    UserState.filteredHistory lower { su with searchQuery := "", statusFilter := "all" } =
      su.history := by
  refine ⟨?_, ?_, List.filter_sublist _, List.filter_sublist _, ?_, ?_, ?_, ?_⟩
  · unfold RecyclerState.filteredItems
    congr 1
    funext r
    rw [search_guard_redundant lower hl]
  · unfold UserState.filteredHistory
    congr 1
    funext r
    rw [search_guard_redundant lower hl]
  · intro r hr
    simp only [RecyclerState.filteredItems, List.mem_filter] at hr
    have h2 : r.status = "assigned" := by
      have h3 := hr.2
      simp at h3
      exact h3.2
    exact ⟨h2, by rw [h2]; decide⟩
  · intro r hr
    simp only [UserState.filteredHistory, List.mem_filter] at hr
    have h2 : r.status = "assigned" := by
      have h3 := hr.2
      simp at h3
      exact h3.2
    exact ⟨h2, by rw [h2]; decide⟩
  · simp [RecyclerState.filteredItems, hl, includes_empty]
  · simp [UserState.filteredHistory, hl, includes_empty]

/-- Witness for C21: lower-casing of `A` to `Z`; the search text `BATT` under
the filter `assigned` finds the assigned battery report and not the received
one. -/
theorem filtered_lists_project_snapshot_witness :
    RecyclerState.filteredItems asciiLower
        { RecyclerState.init { token := none, requests := [] } with
          items := [Report.sample, { Report.sample with id := 12, status := "received" }],
          searchQuery := "BATT", statusFilter := "assigned" } = [Report.sample] ∧
    RecyclerState.filteredItems asciiLower
        { RecyclerState.init { token := none, requests := [] } with
          items := [Report.sample, { Report.sample with id := 12, status := "received" }],
          searchQuery := "", statusFilter := "all" } =
      [Report.sample, { Report.sample with id := 12, status := "received" }] := by
  have h := filtered_lists_project_snapshot asciiLower rfl
    { RecyclerState.init { token := none, requests := [] } with
      items := [Report.sample, { Report.sample with id := 12, status := "received" }],
      searchQuery := "BATT", statusFilter := "assigned" }
    (UserState.init { token := none, requests := [] })
  refine ⟨?_, h.2.2.2.2.2.2.1⟩
  rw [h.1]
  decide

/-- C22: under the filter `pending` the list holds the centers with
`approved = false` and under `approved` those with `approved = true`, in
snapshot order; no center is in both, every center is in one of them, and
under any other filter value the list is the whole list. -/
theorem filteredCenters_partition (s : AdminState) (f : String)
    (hf : f ≠ "approved" ∧ f ≠ "pending") :
    AdminState.filteredCenters { s with filterApproved := "pending" } =
      s.centers.filter (fun c => !c.approved) ∧
    AdminState.filteredCenters { s with filterApproved := "approved" } =
      s.centers.filter (fun c => c.approved) ∧
    (∀ c, c ∈ AdminState.filteredCenters { s with filterApproved := "pending" } ↔
      c ∈ s.centers ∧ c.approved = false) ∧
    (∀ c, c ∈ AdminState.filteredCenters { s with filterApproved := "approved" } ↔
      c ∈ s.centers ∧ c.approved = true) ∧
    (∀ c, ¬ (c ∈ AdminState.filteredCenters { s with filterApproved := "pending" } ∧
      c ∈ AdminState.filteredCenters { s with filterApproved := "approved" })) ∧
    (∀ c, c ∈ s.centers ↔
      (c ∈ AdminState.filteredCenters { s with filterApproved := "pending" } ∨
        c ∈ AdminState.filteredCenters { s with filterApproved := "approved" })) ∧
    (AdminState.filteredCenters { s with filterApproved := "pending" }).length +
      (AdminState.filteredCenters { s with filterApproved := "approved" }).length =
      s.centers.length ∧
    AdminState.filteredCenters { s with filterApproved := f } = s.centers := by
  have hp : AdminState.filteredCenters { s with filterApproved := "pending" } =
      s.centers.filter (fun c => !c.approved) := by
    simp [AdminState.filteredCenters]
  have ha : AdminState.filteredCenters { s with filterApproved := "approved" } =
      s.centers.filter (fun c => c.approved) := by
    simp [AdminState.filteredCenters]
  rw [hp, ha]
  refine ⟨rfl, rfl, ?_, ?_, ?_, ?_, ?_, ?_⟩
  · intro c
    simp
  · intro c
    simp
  · intro c
    simp
    intro _ h1 _
    simp [h1]
  · intro c
    simp
    constructor
    · intro h
      cases hc : c.approved <;> simp [h]
    · rintro (h | h) <;> exact h.1
  · induction s.centers with
    | nil => rfl
    | cons c cs ih =>
      cases hc : c.approved <;> simp [List.filter_cons, hc] <;> omega
  · simp [AdminState.filteredCenters, hf.1, hf.2]

/-- Witness for C22: one pending and one approved center under the filter
`all`. -/
theorem filteredCenters_partition_witness :
    AdminState.filteredCenters
        { AdminState.init { token := none, requests := [] } with
          centers := [Center.sample, { Center.sample with id := 5, approved := false }],
          filterApproved := "pending" } =
      [{ Center.sample with id := 5, approved := false }] ∧
    AdminState.filteredCenters
        { AdminState.init { token := none, requests := [] } with
          centers := [Center.sample, { Center.sample with id := 5, approved := false }],
          filterApproved := "all" } =
      [Center.sample, { Center.sample with id := 5, approved := false }] := by
  have h := filteredCenters_partition
    { AdminState.init { token := none, requests := [] } with
      centers := [Center.sample, { Center.sample with id := 5, approved := false }] }
    "all" (by decide)
  exact ⟨by rw [h.1]; decide, h.2.2.2.2.2.2.2⟩

/-! ## Notification channel -/

/-- C23 (code at the failing input): two `showToast` calls while `Date.now()`
shows the same millisecond give two notifications with the same id, so the id
of the second is not fresh and the ids in the list are not distinct. -/
theorem showToast_same_millisecond_same_id :
    (useToast.showToast 1000 "first" none []).2 =
      [{ id := 1000, message := "first", type := "info" }] ∧
    (useToast.showToast 1000 "second" (some "error")
        (useToast.showToast 1000 "first" none []).2).1 = 1000 ∧
    ((useToast.showToast 1000 "second" (some "error")
        (useToast.showToast 1000 "first" none []).2).2.map (fun t => t.id)) = [1000, 1000] ∧
    ¬ ((useToast.showToast 1000 "second" (some "error")
        (useToast.showToast 1000 "first" none []).2).2.map (fun t => t.id)).Nodup := by
  decide

/-- Effect of a sequence of `showToast` calls: one entry per call is added at
the end, in call order. -/
theorem showAll_eq (calls : List (Nat × String × Option String)) (toasts : List ToastEntry) :
    useToast.showAll calls toasts =
      toasts ++ calls.map (fun c =>
        ({ id := c.1, message := c.2.1, type := c.2.2.getD "info" } : ToastEntry)) := by
  induction calls generalizing toasts with
  | nil => simp [useToast.showAll]
  | cons c cs ih =>
    have hstep : useToast.showAll (c :: cs) toasts =
        useToast.showAll cs (useToast.showToast c.1 c.2.1 c.2.2 toasts).2 := rfl
    rw [hstep, ih]
    simp [useToast.showToast]

/-- C24: `showToast` yields the list followed by one new entry with the given
message and type (`info` when the type is omitted); the entries already there
are kept as a prefix, the length grows by one also when the message is already
in the list, and after a sequence of calls the new entries follow the list in
call order. -/
theorem showToast_appends (now : Nat) (message : String) (type : Option String)
    (toasts : List ToastEntry) (calls : List (Nat × String × Option String)) :
    (useToast.showToast now message type toasts).2 =
      toasts ++ [{ id := now, message := message, type := type.getD "info" }] ∧
    (useToast.showToast now message none toasts).2 =
      toasts ++ [{ id := now, message := message, type := "info" }] ∧
    (useToast.showToast now message type toasts).1 = now ∧
    toasts <+: (useToast.showToast now message type toasts).2 ∧
    (useToast.showToast now message type toasts).2.length = toasts.length + 1 ∧
    (useToast.showToast now message type
        (useToast.showToast now message type toasts).2).2.length = toasts.length + 2 ∧
    useToast.showAll calls toasts =
      toasts ++ calls.map (fun c =>
        ({ id := c.1, message := c.2.1, type := c.2.2.getD "info" } : ToastEntry)) := by
  refine ⟨rfl, rfl, rfl, ?_, ?_, ?_, showAll_eq calls toasts⟩
  · exact List.prefix_append _ _
  · simp [useToast.showToast]
  · simp [useToast.showToast]

/-- C25: `removeToast(id)` keeps, in order, exactly the entries whose id is not
`id`; when no entry has that id the list is unchanged, and removing the same
id twice is removing it once. -/
theorem removeToast_removes_only_id (id : Nat) (toasts : List ToastEntry) :
    (∀ t, t ∈ useToast.removeToast id toasts ↔ t ∈ toasts ∧ t.id ≠ id) ∧
    List.Sublist (useToast.removeToast id toasts) toasts ∧
    useToast.removeToast id toasts = toasts.filter (fun t => decide (t.id ≠ id)) ∧
    ((∀ t ∈ toasts, t.id ≠ id) → useToast.removeToast id toasts = toasts) ∧
    useToast.removeToast id (useToast.removeToast id toasts) = useToast.removeToast id toasts := by
  refine ⟨?_, List.filter_sublist _, rfl, ?_, ?_⟩
  · intro t
    simp [useToast.removeToast]
  · intro h
    simp only [useToast.removeToast, List.filter_eq_self]
    intro t ht
    simpa using h t ht
  · simp [useToast.removeToast, List.filter_filter]

/-- Witness for C25: an id that no entry carries leaves the list as it is. -/
theorem removeToast_removes_only_id_witness :
    useToast.removeToast 7
        [{ id := 1, message := "a", type := "info" }, { id := 2, message := "b", type := "error" }] =
      [{ id := 1, message := "a", type := "info" }, { id := 2, message := "b", type := "error" }] :=
  (removeToast_removes_only_id 7
    [{ id := 1, message := "a", type := "info" },
      { id := 2, message := "b", type := "error" }]).2.2.2.1 (by decide)

/-- C26 (code at the failing input): a page raises `A` at time 0 and `B` at
time 2000. After the second call `B` is shown and two removals are scheduled,
for 3000 and 5000. At time 3000 the removal scheduled by the first call runs
and the toast cell is empty, although `B` was raised 1000 ms before. -/
theorem earlier_timer_removes_later_toast :
    (showToast "B" (some "error")
        (Notifier.advance 2000 (showToast "A" (some "success") Notifier.empty))).toast =
      some { message := "B", type := "error" } ∧
    (showToast "B" (some "error")
        (Notifier.advance 2000 (showToast "A" (some "success") Notifier.empty))).timeouts =
      [3000, 5000] ∧
    (Notifier.advance 3000
        (showToast "B" (some "error")
          (Notifier.advance 2000 (showToast "A" (some "success") Notifier.empty)))).toast =
      none ∧
    (Notifier.advance 3000
        (showToast "B" (some "error")
          (Notifier.advance 2000 (showToast "A" (some "success") Notifier.empty)))).timeouts =
      [5000] := by
  decide

/-! ## Redirect resolution -/

/-- For the role `guest` the root route redirects to `/dashboard` and the
guard of `/dashboard` redirects to `/`. -/
theorem guest_redirects :
    redirectTarget (some { id := 9, email := "g@portal", name := none, role := "guest" }) "/" =
      some "/dashboard" ∧
    redirectTarget (some { id := 9, email := "g@portal", name := none, role := "guest" })
      "/dashboard" = some "/" := by
  decide

/-- For the role `guest` the redirects never leave the two paths `/` and
`/dashboard`. -/
theorem guest_chain_stays (n : Nat) (path : String) (h : path = "/" ∨ path = "/dashboard") :
    followRedirects (some { id := 9, email := "g@portal", name := none, role := "guest" }) n
        path = "/" ∨
    followRedirects (some { id := 9, email := "g@portal", name := none, role := "guest" }) n
        path = "/dashboard" := by
  induction n generalizing path with
  | zero => exact h
  | succ k ih =>
    rcases h with h | h
    · subst h
      have hs : followRedirects
          (some { id := 9, email := "g@portal", name := none, role := "guest" }) (k + 1) "/" =
          followRedirects
            (some { id := 9, email := "g@portal", name := none, role := "guest" }) k
            "/dashboard" := by
        rw [followRedirects, guest_redirects.1]
      rw [hs]
      exact ih _ (Or.inr rfl)
    · subst h
      have hs : followRedirects
          (some { id := 9, email := "g@portal", name := none, role := "guest" }) (k + 1)
            "/dashboard" =
          followRedirects
            (some { id := 9, email := "g@portal", name := none, role := "guest" }) k "/" := by
        rw [followRedirects, guest_redirects.2]
      rw [hs]
      exact ih _ (Or.inl rfl)

/-- For an identity with one of the three known roles, two redirects from any
of the four paths reach a path whose entry is not a redirect. -/
theorem known_role_redirects_settle (u : Identity)
    (hr : u.role = "user" ∨ u.role = "recycler" ∨ u.role = "admin") (path : String)
    (hp : path ∈ ["/", "/dashboard", "/recycler", "/admin"]) :
    redirectTarget (some u) (followRedirects (some u) 2 path) = none := by
  simp only [List.mem_cons, List.mem_singleton, List.not_mem_nil, or_false] at hp
  rcases hr with hr | hr | hr <;> rcases hp with hp | hp | hp | hp <;> subst hp <;>
    simp [followRedirects, redirectTarget, routes, ProtectedRoute, rootElement, List.lookup, hr]

/-- C28 (code at the failing input): for an identity with the role `guest` the
entry of `/` redirects to `/dashboard` and the entry of `/dashboard` redirects
to `/`, and after any number of redirects from `/` the path reached is again
one whose entry is a redirect. -/
theorem unknown_role_redirects_cycle (n : Nat) :
    redirectTarget (some { id := 9, email := "g@portal", name := none, role := "guest" }) "/" =
      some "/dashboard" ∧
    redirectTarget (some { id := 9, email := "g@portal", name := none, role := "guest" })
      "/dashboard" = some "/" ∧
    redirectTarget (some { id := 9, email := "g@portal", name := none, role := "guest" })
      (followRedirects (some { id := 9, email := "g@portal", name := none, role := "guest" }) n
        "/") ≠ none := by
  refine ⟨guest_redirects.1, guest_redirects.2, ?_⟩
  rcases guest_chain_stays n "/" (Or.inl rfl) with h | h
  · rw [h, guest_redirects.1]
    simp
  · rw [h, guest_redirects.2]
    simp

/-! ## Login -/

/-- Effect of `Login.submit` in full when `onLogin` is the `loadMe` of `App`,
by the outcome of the login request and of the identity fetch that follows
the refresh. -/
theorem LoginState_submit_effect (srv : Server) (answer : Config → Except ApiError Identity)
    (s : LoginState) :
    LoginState.submit srv (loadMe answer) s =
      (Except.ok (),
        match srv.login (outgoing s.app.net.token "post" "/auth/login-json"
            [("email", s.email), ("password", s.password)]) with
        | Except.error e =>
          { s with
            app := { s.app with net := { s.app.net with requests := s.app.net.requests ++
              [outgoing s.app.net.token "post" "/auth/login-json"
                [("email", s.email), ("password", s.password)]] } },
            error := detailOr e "Invalid credentials",
            loading := false,
            ui := showToast (detailOr e "Invalid credentials") (some "error") s.ui }
        | Except.ok res =>
          match srv.getMe (outgoing (some res.access_token) "get" "/users/me" []) with
          | Except.error e =>
            { s with
              app :=
                { net :=
                    { token := some res.access_token,
                      requests := s.app.net.requests ++
                        [outgoing s.app.net.token "post" "/auth/login-json"
                            [("email", s.email), ("password", s.password)],
                          outgoing (some res.access_token) "get" "/users/me" [],
                          outgoing (some res.access_token) "get" "/users/me" []] },
                  user := (answer (outgoing (some res.access_token) "get" "/users/me" [])).toOption,
                  loading := false,
                  location := s.app.location },
              error := detailOr e "Invalid credentials",
              loading := false,
              ui := showToast (detailOr e "Invalid credentials") (some "error") s.ui }
          | Except.ok u =>
            { s with
              app :=
                { net :=
                    { token := some res.access_token,
                      requests := s.app.net.requests ++
                        [outgoing s.app.net.token "post" "/auth/login-json"
                            [("email", s.email), ("password", s.password)],
                          outgoing (some res.access_token) "get" "/users/me" [],
                          outgoing (some res.access_token) "get" "/users/me" []] },
                  user := (answer (outgoing (some res.access_token) "get" "/users/me" [])).toOption,
                  loading := false,
                  location := s.app.location },
              error := "",
              loading := false,
              navigations := s.navigations ++ [(s.ui.now + 500, LoginState.home u.role)],
              ui := showToast "Login successful!" (some "success") s.ui }) := by
  simp only [LoginState.submit, LoginState.onNet, LoginState.onApp, LoginState.showToast,
    Act.bind, Act.tryFinally, Act.tryCatch, Act.modify, Act.lift, login, getMe, apiPost_effect,
    apiGet_effect, loadMe_effect, outgoing]
  cases hL : srv.login (requestInterceptor s.app.net.token
      (baseConfig "post" "/auth/login-json" [("email", s.email), ("password", s.password)])) with
  | error e => simp
  | ok res =>
    cases hG : srv.getMe (requestInterceptor (some res.access_token)
        (baseConfig "get" "/users/me" [])) with
    | error e => simp [hG, showToast]
    | ok u => simp [hG, showToast]

/-- C27: with `onLogin` the `loadMe` of `App`, for every server and state.
`Login.submit` returns normally. When the login request succeeds and the
identity fetch after the refresh returns `u`, it schedules one navigation, to
`/recycler` for role `recycler`, `/admin` for role `admin` and `/dashboard`
otherwise, and raises the success notification; for every identity this target
is the target of the redirect of the root route. When the login request fails,
or succeeds and the identity fetch after it fails, with error `e`, no
navigation is scheduled, the inline error is set and one error notification is
raised, both with the detail of `e` or `Invalid credentials`. The token store
holds the `access_token` once the login request has succeeded and is unchanged
when it failed. -/
theorem login_navigates_home (srv : Server) (answer : Config → Except ApiError Identity)
    (s : LoginState) :
    (LoginState.submit srv (loadMe answer) s).1 = Except.ok () ∧
    (LoginState.submit srv (loadMe answer) s).2.navigations =
      s.navigations ++
        (match srv.login (outgoing s.app.net.token "post" "/auth/login-json"
            [("email", s.email), ("password", s.password)]) with
          | Except.error _ => []
          | Except.ok res =>
            match srv.getMe (outgoing (some res.access_token) "get" "/users/me" []) with
            | Except.error _ => []
            | Except.ok u => [(s.ui.now + 500, LoginState.home u.role)]) ∧
    (LoginState.submit srv (loadMe answer) s).2.ui.raised =
      s.ui.raised ++
        [(match srv.login (outgoing s.app.net.token "post" "/auth/login-json"
            [("email", s.email), ("password", s.password)]) with
          | Except.error e => { message := detailOr e "Invalid credentials", type := "error" }
          | Except.ok res =>
            match srv.getMe (outgoing (some res.access_token) "get" "/users/me" []) with
            | Except.error e => { message := detailOr e "Invalid credentials", type := "error" }
            | Except.ok _ => { message := "Login successful!", type := "success" })] ∧
    (LoginState.submit srv (loadMe answer) s).2.error =
      (match srv.login (outgoing s.app.net.token "post" "/auth/login-json"
          [("email", s.email), ("password", s.password)]) with
        | Except.error e => detailOr e "Invalid credentials"
        | Except.ok res =>
          match srv.getMe (outgoing (some res.access_token) "get" "/users/me" []) with
          | Except.error e => detailOr e "Invalid credentials"
          | Except.ok _ => "") ∧
    (LoginState.submit srv (loadMe answer) s).2.app.net.token =
      (match srv.login (outgoing s.app.net.token "post" "/auth/login-json"
          [("email", s.email), ("password", s.password)]) with
        | Except.error _ => s.app.net.token
        | Except.ok res => some res.access_token) ∧
    (LoginState.submit srv (loadMe answer) s).2.loading = false ∧
    LoginState.home "recycler" = "/recycler" ∧
    LoginState.home "admin" = "/admin" ∧
    (∀ role, role ≠ "recycler" → role ≠ "admin" → LoginState.home role = "/dashboard") ∧
    (∀ v : Identity, rootElement (some v) = Element.navigate (LoginState.home v.role) false) := by
  have k := LoginState_submit_effect srv answer s
  refine ⟨by rw [k], ?_, ?_, ?_, ?_, ?_, by decide, by decide, ?_, ?_⟩
  · rw [k]
    cases hL : srv.login (outgoing s.app.net.token "post" "/auth/login-json"
        [("email", s.email), ("password", s.password)]) with
    | error e => simp
    | ok res =>
      cases hG : srv.getMe (outgoing (some res.access_token) "get" "/users/me" []) <;> simp [hG]
  · rw [k]
    cases hL : srv.login (outgoing s.app.net.token "post" "/auth/login-json"
        [("email", s.email), ("password", s.password)]) with
    | error e => simp [showToast]
    | ok res =>
      cases hG : srv.getMe (outgoing (some res.access_token) "get" "/users/me" []) <;>
        simp [hG, showToast]
  · rw [k]
    cases hL : srv.login (outgoing s.app.net.token "post" "/auth/login-json"
        [("email", s.email), ("password", s.password)]) with
    | error e => simp
    | ok res =>
      cases hG : srv.getMe (outgoing (some res.access_token) "get" "/users/me" []) <;> simp [hG]
  · rw [k]
    cases hL : srv.login (outgoing s.app.net.token "post" "/auth/login-json"
        [("email", s.email), ("password", s.password)]) with
    | error e => simp
    | ok res =>
      cases hG : srv.getMe (outgoing (some res.access_token) "get" "/users/me" []) <;> simp [hG]
  · rw [k]
    cases hL : srv.login (outgoing s.app.net.token "post" "/auth/login-json"
        [("email", s.email), ("password", s.password)]) with
    | error e => simp
    | ok res =>
      cases hG : srv.getMe (outgoing (some res.access_token) "get" "/users/me" []) <;> simp [hG]
  · intro role h1 h2
    simp [LoginState.home, h1, h2]
  · intro v
    by_cases ha : v.role = "admin"
    · simp [rootElement, LoginState.home, ha]
    · by_cases hr : v.role = "recycler"
      · simp [rootElement, LoginState.home, hr]
      · simp [rootElement, LoginState.home, ha, hr]

/-- Evaluation of C27 at three inputs: a login that the server accepts for a
recycler; a login with a wrong password, which it rejects; and a login that it
accepts while it rejects the identity fetch that follows. -/
theorem login_navigates_home_witness :
    (LoginState.submit Server.checking (loadMe Server.checking.getMe)
        { LoginState.init (App.init { token := none, requests := [] } "/login") with
          email := "r@portal", password := "pw" }).2.navigations = [(500, "/recycler")] ∧
    (LoginState.submit Server.checking (loadMe Server.checking.getMe)
        { LoginState.init (App.init { token := none, requests := [] } "/login") with
          email := "r@portal", password := "wrong" }).2.navigations = [] ∧
    (LoginState.submit Server.checking (loadMe Server.checking.getMe)
        { LoginState.init (App.init { token := none, requests := [] } "/login") with
          email := "r@portal", password := "wrong" }).2.ui.raised =
      [{ message := "Invalid credentials", type := "error" }] ∧
    (LoginState.submit
        { Server.checking with
          getMe := fun _ => Except.error { status := some 500, detail := none } }
        (loadMe (fun _ => Except.error { status := some 500, detail := none }))
        { LoginState.init (App.init { token := none, requests := [] } "/login") with
          email := "r@portal", password := "pw" }).2.navigations = [] ∧
    (LoginState.submit
        { Server.checking with
          getMe := fun _ => Except.error { status := some 500, detail := none } }
        (loadMe (fun _ => Except.error { status := some 500, detail := none }))
        { LoginState.init (App.init { token := none, requests := [] } "/login") with
          email := "r@portal", password := "pw" }).2.ui.raised =
      [{ message := "Invalid credentials", type := "error" }] ∧
    (LoginState.submit
        { Server.checking with
          getMe := fun _ => Except.error { status := some 500, detail := none } }
        (loadMe (fun _ => Except.error { status := some 500, detail := none }))
        { LoginState.init (App.init { token := none, requests := [] } "/login") with
          email := "r@portal", password := "pw" }).2.app.net.token = some "fresh" := by
  have h1 := login_navigates_home Server.checking Server.checking.getMe
    { LoginState.init (App.init { token := none, requests := [] } "/login") with
      email := "r@portal", password := "pw" }
  have h2 := login_navigates_home Server.checking Server.checking.getMe
    { LoginState.init (App.init { token := none, requests := [] } "/login") with
      email := "r@portal", password := "wrong" }
  have h3 := login_navigates_home
    { Server.checking with
      getMe := fun _ => Except.error { status := some 500, detail := none } }
    (fun _ => Except.error { status := some 500, detail := none })
    { LoginState.init (App.init { token := none, requests := [] } "/login") with
      email := "r@portal", password := "pw" }
  rw [h1.2.1, h2.2.1, h2.2.2.1, h3.2.1, h3.2.2.1, h3.2.2.2.2.1]
  simp [Server.checking, Server.accepting, outgoing, requestInterceptor, baseConfig,
    LoginState.init, App.init, Notifier.empty, LoginState.home, detailOr]

/-! ## Center lists of the recycler dashboard -/

/-- C29 (as stated) fails: the identity has id 2 and the server lists an
approved center whose `manager_user_id` is 0; the center has a manager, who is
not the identity, yet after `loadDashboard` it is in `availableCenters` and
the button `Claim Center` is shown for it. -/
theorem available_center_with_manager_zero :
    (RecyclerState.loadDashboard
        { Server.accepting with listCenters := fun _ => Except.ok [Center.managedByZero] }
        (RecyclerState.init { token := some "tok", requests := [] })).2.availableCenters =
      [Center.managedByZero] ∧
    offersClaim Center.managedByZero = true ∧
    Center.managedByZero.manager_user_id = some 0 ∧
    Center.managedByZero.manager_user_id ≠ none ∧
    Center.managedByZero.manager_user_id ≠ some 2 ∧
    Server.accepting.getMe (outgoing (some "tok") "get" "/users/me" []) =
      Except.ok { id := 2, email := "r@portal", name := none, role := "recycler" } := by
  refine ⟨?_, by decide, by decide, by decide, by decide, rfl⟩
  simp [RecyclerState_loadDashboard_effect, Server.accepting, RecyclerState.init,
    Center.managedByZero, Center.sample, noManager, managedBy]

/-- C29 (amended): after a `loadDashboard` whose three reads succeed, with
identity `me` and centers `C`, `claimedCenters` holds the centers of `C` whose
manager is `me`, and `availableCenters` holds the approved centers of `C`
whose `manager_user_id` is null, 0 or the id of `me`, both in server order.
The button `Claim Center` is shown only for approved centers whose
`manager_user_id` is null or 0, the label `Already claimed by you` only for
centers whose manager is `me`, and a center whose manager id is neither 0 nor
the id of `me` is in neither list. -/
theorem loadDashboard_center_lists (srv : Server) (s : RecyclerState) (me : Identity)
    (C : List Center) (r : List Report)
    (h0 : srv.getMe (outgoing s.net.token "get" "/users/me" []) = Except.ok me)
    (h1 : srv.listCenters (outgoing s.net.token "get" "/recyclers/centers" []) = Except.ok C)
    (h2 : srv.recyclerAssigned (outgoing s.net.token "get" "/recyclers/assigned" []) =
      Except.ok r) :
    (∀ c, c ∈ (RecyclerState.loadDashboard srv s).2.claimedCenters ↔
      c ∈ C ∧ c.manager_user_id = some me.id) ∧
    (∀ c, c ∈ (RecyclerState.loadDashboard srv s).2.availableCenters ↔
      c ∈ C ∧ c.approved = true ∧
        (c.manager_user_id = none ∨ c.manager_user_id = some 0 ∨
          c.manager_user_id = some me.id)) ∧
    List.Sublist (RecyclerState.loadDashboard srv s).2.claimedCenters C ∧
    List.Sublist (RecyclerState.loadDashboard srv s).2.availableCenters C ∧
    (∀ c ∈ (RecyclerState.loadDashboard srv s).2.availableCenters, offersClaim c = true →
      c.approved = true ∧ (c.manager_user_id = none ∨ c.manager_user_id = some 0)) ∧
    (∀ c ∈ (RecyclerState.loadDashboard srv s).2.availableCenters, labelledClaimed c = true →
      c.manager_user_id = some me.id) ∧
    (∀ c k, c.manager_user_id = some k → k ≠ 0 → k ≠ me.id →
      c ∉ (RecyclerState.loadDashboard srv s).2.claimedCenters ∧
      c ∉ (RecyclerState.loadDashboard srv s).2.availableCenters) := by
  have hc : (RecyclerState.loadDashboard srv s).2.claimedCenters =
      C.filter (fun x => managedBy me x) := by
    rw [RecyclerState_loadDashboard_effect]
    simp [h0, h1, h2]
  have ha : (RecyclerState.loadDashboard srv s).2.availableCenters =
      C.filter (fun x => x.approved && (noManager x || managedBy me x)) := by
    rw [RecyclerState_loadDashboard_effect]
    simp [h0, h1, h2]
  have hnm : ∀ c : Center, noManager c = true ↔
      (c.manager_user_id = none ∨ c.manager_user_id = some 0) := by
    intro c
    unfold noManager
    cases c.manager_user_id with
    | none => simp
    | some k => simp
  have hmb : ∀ c : Center, managedBy me c = true ↔ c.manager_user_id = some me.id := by
    intro c
    simp [managedBy]
  rw [hc, ha]
  refine ⟨?_, ?_, List.filter_sublist _, List.filter_sublist _, ?_, ?_, ?_⟩
  · intro c
    simp [hmb]
  · intro c
    simp only [List.mem_filter, Bool.and_eq_true, Bool.or_eq_true, hnm, hmb]
    tauto
  · intro c hcm ho
    simp only [List.mem_filter, Bool.and_eq_true] at hcm
    exact ⟨hcm.2.1, (hnm c).1 ho⟩
  · intro c hcm hl
    simp only [List.mem_filter, Bool.and_eq_true, Bool.or_eq_true, hnm, hmb] at hcm
    have hn : ¬ (c.manager_user_id = none ∨ c.manager_user_id = some 0) := by
      intro hx
      have := (hnm c).2 hx
      simp [labelledClaimed, this] at hl
    rcases hcm.2.2 with hx | hx
    · exact absurd hx hn
    · exact hx
  · intro c k hk hk0 hkme
    simp only [List.mem_filter, Bool.and_eq_true, Bool.or_eq_true, hnm, hmb, hk]
    simp [hk0, hkme]

/-- Witness for C29 (amended): the identity with id 2 and one approved center
without manager, which is listed as available and not as claimed. -/
theorem loadDashboard_center_lists_witness :
    Center.sample ∈ (RecyclerState.loadDashboard Server.accepting
        (RecyclerState.init { token := some "tok", requests := [] })).2.availableCenters ∧
    ¬ Center.sample ∈ (RecyclerState.loadDashboard Server.accepting
        (RecyclerState.init { token := some "tok", requests := [] })).2.claimedCenters :=
  ⟨((loadDashboard_center_lists Server.accepting
      (RecyclerState.init { token := some "tok", requests := [] })
      { id := 2, email := "r@portal", name := none, role := "recycler" } [Center.sample]
      [Report.sample] rfl rfl rfl).2.1 Center.sample).2
      ⟨List.mem_singleton.2 rfl, rfl, Or.inl rfl⟩,
    fun h => absurd (((loadDashboard_center_lists Server.accepting
      (RecyclerState.init { token := some "tok", requests := [] })
      { id := 2, email := "r@portal", name := none, role := "recycler" } [Center.sample]
      [Report.sample] rfl rfl rfl).1 Center.sample).1 h).2 (by decide)⟩

/-! ## Report upload -/

/-- C30 (code at the failing input): a file is selected, the upload is accepted
and every read of the reload is rejected. `submit` raises the success
notification and then the error notification `Upload failed`, which is the
last one raised and the one shown; the file and the selected center are not
reset. -/
theorem submit_reload_failure_reported_as_upload_failure :
    (UserState.submit
        { Server.rejecting { status := some 500, detail := none } with
          createReport := fun _ => Except.ok { category := "battery", confidence := 1 } }
        (fun _ => "100") UserState.ready).1 = Except.ok () ∧
    ((UserState.submit
        { Server.rejecting { status := some 500, detail := none } with
          createReport := fun _ => Except.ok { category := "battery", confidence := 1 } }
        (fun _ => "100") UserState.ready).2.ui.raised.map (fun t => t.type)) = ["success", "error"] ∧
    (UserState.submit
        { Server.rejecting { status := some 500, detail := none } with
          createReport := fun _ => Except.ok { category := "battery", confidence := 1 } }
        (fun _ => "100") UserState.ready).2.ui.raised.getLast? =
      some { message := "Upload failed", type := "error" } ∧
    (UserState.submit
        { Server.rejecting { status := some 500, detail := none } with
          createReport := fun _ => Except.ok { category := "battery", confidence := 1 } }
        (fun _ => "100") UserState.ready).2.ui.toast = some { message := "Upload failed", type := "error" } ∧
    (UserState.submit
        { Server.rejecting { status := some 500, detail := none } with
          createReport := fun _ => Except.ok { category := "battery", confidence := 1 } }
        (fun _ => "100") UserState.ready).2.file = some "tv.png" ∧
    (UserState.submit
        { Server.rejecting { status := some 500, detail := none } with
          createReport := fun _ => Except.ok { category := "battery", confidence := 1 } }
        (fun _ => "100") UserState.ready).2.selectedCenter = some Center.sample ∧
    (UserState.submit
        { Server.rejecting { status := some 500, detail := none } with
          createReport := fun _ => Except.ok { category := "battery", confidence := 1 } }
        (fun _ => "100") UserState.ready).2.loading = false ∧
    ((UserState.submit
        { Server.rejecting { status := some 500, detail := none } with
          createReport := fun _ => Except.ok { category := "battery", confidence := 1 } }
        (fun _ => "100") UserState.ready).2.net.requests.map (fun c => (c.method, c.url))) =
      [("post", "/reports/create"), ("get", "/recyclers/centers")] := by
  simp [UserState.submit, UserState.ready, UserState.init, UserState.onNet, UserState.showToast,
    UserState_loadData_effect, Act.bind, Act.tryFinally, Act.tryCatch, Act.modify, Act.lift,
    createReport, apiPost_effect, Server.rejecting, Notifier.empty, showToast, detailOr,
    outgoing, requestInterceptor, baseConfig, Center.sample]

end EWaste
